import Mathlib

/-!
Verification of the record-shredding core of a Parquet reader
(schema inference, dynamic `Value`, display) against its source.

The embedding follows `src/record/types/value.rs`, `src/record/types/list.rs`,
`src/record/types/group.rs`, `src/record/types/boxed.rs` and
`src/record/display.rs`.  Types that live in files not provided
(`schemas.rs`, `map.rs`, `basic.rs`) are reconstructed from their use sites
and from the specification; each such definition says so in its doc comment.
-/

namespace Parquet

/-- Field repetition, from `basic.rs` (`Repetition`).  The three Parquet
repetition levels. -/
inductive Repetition : Type
  | required
  | optional
  | repeated
deriving DecidableEq

/-- Physical column type, from `basic.rs` (`Type`, aliased `PhysicalType`
in `value.rs`). -/
inductive PhysicalType : Type
  | boolean
  | int32
  | int64
  | int96
  | float
  | double
  | byteArray
  | fixedLenByteArray
deriving DecidableEq

/-- Logical type, from `basic.rs` (`LogicalType`).  `none` is the absent
logical annotation of the Parquet format. -/
inductive LogicalType : Type
  | none
  | utf8
  | map
  | mapKeyValue
  | list
  | enum
  | decimal
  | date
  | timeMillis
  | timeMicros
  | timestampMillis
  | timestampMicros
  | uint8
  | uint16
  | uint32
  | uint64
  | int8
  | int16
  | int32
  | int64
  | json
  | bson
  | interval
deriving DecidableEq

/-- The file-format type tree, from `schema/types.rs` (`Type`).  A node is
either a primitive leaf or a group with child fields.  Each node carries its
name and basic info (repetition and logical type); primitive leaves carry
the physical type, declared type length, and decimal precision/scale
(`get_type_length`, `get_precision`, `get_scale` are `i32` in the source,
modelled as `Int`). -/
inductive PType : Type
  | primitive (name : String) (repetition : Repetition) (physical : PhysicalType)
      (logical : LogicalType) (typeLength : Int) (precision : Int) (scale : Int)
  | group (name : String) (repetition : Repetition) (logical : LogicalType)
      (fields : List PType)

/-- `Type::name`. -/
def PType.name : PType → String
  | .primitive n _ _ _ _ _ _ => n
  | .group n _ _ _ => n

/-- `Type::get_basic_info().repetition()`. -/
def PType.repetitionOf : PType → Repetition
  | .primitive _ r _ _ _ _ _ => r
  | .group _ r _ _ => r

/-- `Type::get_basic_info().logical_type()`. -/
def PType.logicalOf : PType → LogicalType
  | .primitive _ _ _ l _ _ _ => l
  | .group _ _ l _ => l

/-- `Type::is_primitive`. -/
def PType.isPrimitive : PType → Bool
  | .primitive _ _ _ _ _ _ _ => true
  | .group _ _ _ _ => false

/-- `Type::is_group`. -/
def PType.isGroup : PType → Bool
  | .primitive _ _ _ _ _ _ _ => false
  | .group _ _ _ _ => true

/-- `Type::get_fields` (empty for primitives). -/
def PType.getFields : PType → List PType
  | .primitive _ _ _ _ _ _ _ => []
  | .group _ _ _ fs => fs

/-! Accessor computation rules on constructors. -/

@[simp]
theorem PType.name_primitive (n : String) (r : Repetition) (pt : PhysicalType)
    (lt : LogicalType) (tl p s : Int) :
    (PType.primitive n r pt lt tl p s).name = n := rfl

@[simp]
theorem PType.name_group (n : String) (r : Repetition) (lt : LogicalType)
    (fs : List PType) : (PType.group n r lt fs).name = n := rfl

@[simp]
theorem PType.repetitionOf_primitive (n : String) (r : Repetition)
    (pt : PhysicalType) (lt : LogicalType) (tl p s : Int) :
    (PType.primitive n r pt lt tl p s).repetitionOf = r := rfl

@[simp]
theorem PType.repetitionOf_group (n : String) (r : Repetition) (lt : LogicalType)
    (fs : List PType) : (PType.group n r lt fs).repetitionOf = r := rfl

@[simp]
theorem PType.logicalOf_primitive (n : String) (r : Repetition)
    (pt : PhysicalType) (lt : LogicalType) (tl p s : Int) :
    (PType.primitive n r pt lt tl p s).logicalOf = lt := rfl

@[simp]
theorem PType.logicalOf_group (n : String) (r : Repetition) (lt : LogicalType)
    (fs : List PType) : (PType.group n r lt fs).logicalOf = lt := rfl

@[simp]
theorem PType.isPrimitive_primitive (n : String) (r : Repetition)
    (pt : PhysicalType) (lt : LogicalType) (tl p s : Int) :
    (PType.primitive n r pt lt tl p s).isPrimitive = true := rfl

@[simp]
theorem PType.isPrimitive_group (n : String) (r : Repetition) (lt : LogicalType)
    (fs : List PType) : (PType.group n r lt fs).isPrimitive = false := rfl

@[simp]
theorem PType.isGroup_primitive (n : String) (r : Repetition) (pt : PhysicalType)
    (lt : LogicalType) (tl p s : Int) :
    (PType.primitive n r pt lt tl p s).isGroup = false := rfl

@[simp]
theorem PType.isGroup_group (n : String) (r : Repetition) (lt : LogicalType)
    (fs : List PType) : (PType.group n r lt fs).isGroup = true := rfl

@[simp]
theorem PType.getFields_primitive (n : String) (r : Repetition) (pt : PhysicalType)
    (lt : LogicalType) (tl p s : Int) :
    (PType.primitive n r pt lt tl p s).getFields = [] := rfl

@[simp]
theorem PType.getFields_group (n : String) (r : Repetition) (lt : LogicalType)
    (fs : List PType) : (PType.group n r lt fs).getFields = fs := rfl

/-- Outcome of a fallible computation.  `ok`/`err` model
`Result<_, ParquetError>` with `ParquetError::General(msg)`; `panicked`
models a Rust panic (`unimplemented!`, failed `unwrap`, failed `assert!`),
which aborts and is never returned to the caller as an error value. -/
inductive PResult (α : Type) : Type
  | ok (a : α)
  | err (msg : String)
  | panicked (msg : String)
deriving DecidableEq

/-- Monadic bind on `PResult`: `?` propagation of errors, and panics abort
everything downstream. -/
def PResult.bind {α β : Type} : PResult α → (α → PResult β) → PResult β
  | .ok a, f => f a
  | .err m, _ => .err m
  | .panicked m, _ => .panicked m

instance : Monad PResult where
  pure := .ok
  bind := PResult.bind

/-- `Result::ok`: demote an error to `None`.  A panic is not catchable and
still aborts. -/
def PResult.toOpt {α : Type} : PResult α → PResult (Option α)
  | .ok a => .ok (some a)
  | .err _ => .ok Option.none
  | .panicked m => .panicked m

/-- True iff the outcome is a returned error value (`Err(..)`), as opposed
to a success or a panic. -/
def PResult.isReturnedErr {α : Type} : PResult α → Bool
  | .err _ => true
  | _ => false

/-- `i32::try_into::<u32>().unwrap()` as used on type lengths, precisions
and scales: succeeds exactly on non-negative inputs, otherwise panics. -/
def tryIntoNat (i : Int) : PResult Nat :=
  if 0 ≤ i then .ok i.toNat else .panicked "called Result::unwrap on an Err value"

/-- `TimeSchema`, from `schemas.rs` (structure reconstructed from its use in
`value.rs`: `TimeSchema::Millis`, `TimeSchema::Micros`). -/
inductive TimeSchema : Type
  | millis
  | micros
deriving DecidableEq

/-- `TimestampSchema`, from `schemas.rs` (use sites: `Millis`, `Micros`,
`Int96`). -/
inductive TimestampSchema : Type
  | millis
  | micros
  | int96
deriving DecidableEq

/-- `DecimalSchema`, from `schemas.rs` (use sites: `Int32 {precision, scale}`,
`Int64 {precision, scale}`, `Array {byte_array_schema, precision, scale}`).
The `byte_array_schema` component is the optional fixed length. -/
inductive DecimalSchema : Type
  | int32 (precision scale : Nat)
  | int64 (precision scale : Nat)
  | array (byteArrayLen : Option Nat) (precision scale : Nat)
deriving DecidableEq

/-- `ListSchemaType`, from `schemas.rs` (use sites in `list.rs`:
`List(list_name, element_name)`, `ListCompat(element_name)`, `Repeated`). -/
inductive ListSchemaType : Type
  | list (listName : Option String) (elementName : Option String)
  | listCompat (elementName : String)
  | repeated
deriving DecidableEq

/-- `ValueSchema`, from `schemas.rs`, reconstructed from every construction
site in `value.rs`/`list.rs` and §3.1 of the specification.  Wrapper
structures (`BoolSchema`, `StringSchema(ByteArraySchema(..))`,
`ListSchema(elt, kind)`, `OptionSchema(inner)`, `GroupSchema(fields, lookup)`)
are flattened into the constructor arguments; the group lookup map
(insertion-ordered name → index, index equal to position) is carried as the
name list in insertion order. -/
inductive ValueSchema : Type
  | bool
  | u8
  | i8
  | u16
  | i16
  | u32
  | i32
  | u64
  | i64
  | f32
  | f64
  | date
  | time (s : TimeSchema)
  | timestamp (s : TimestampSchema)
  | decimal (s : DecimalSchema)
  | byteArray (len : Option Nat)
  | bson (len : Option Nat)
  | string (len : Option Nat)
  | json (len : Option Nat)
  | enum (len : Option Nat)
  | list (element : ValueSchema) (kind : ListSchemaType)
  | map (key : ValueSchema) (value : ValueSchema) (keyValueName : Option String)
      (keyName : Option String) (valueName : Option String)
  | group (fields : List ValueSchema) (names : List String)
  | option (inner : ValueSchema)

/-- Whether a schema is the `Option` composite. -/
def ValueSchema.isOption : ValueSchema → Bool
  | .option _ => true
  | _ => false

/-- The primitive-detection table of `Value::parse` (`value.rs` lines
1502–1681): the big `match` over `(physical type, logical type)`.  Arms
appear in source order; the `Interval` arm is the source's
`unimplemented!`.  `flbaLen` below is the repeated
`if physical == FixedLenByteArray { Some(type_length.try_into().unwrap()) }
else { None }` pattern. -/
def flbaLen (physical : PhysicalType) (typeLength : Int) : PResult (Option Nat) :=
  if physical = PhysicalType.fixedLenByteArray then do
    let l ← tryIntoNat typeLength
    pure (some l)
  else pure Option.none

/-- The `(physical, logical)` match of `Value::parse`'s primitive branch. -/
def parsePrimitive (physical : PhysicalType) (logical : LogicalType)
    (typeLength precision scale : Int) : PResult ValueSchema :=
  match physical, logical with
  | .boolean, .none => pure ValueSchema.bool
  | .int32, .uint8 => pure ValueSchema.u8
  | .int32, .int8 => pure ValueSchema.i8
  | .int32, .uint16 => pure ValueSchema.u16
  | .int32, .int16 => pure ValueSchema.i16
  | .int32, .uint32 => pure ValueSchema.u32
  | .int32, .int32 | .int32, .none => pure ValueSchema.i32
  | .int32, .date => pure ValueSchema.date
  | .int32, .timeMillis => pure (ValueSchema.time TimeSchema.millis)
  | .int32, .decimal => do
      let p ← tryIntoNat precision
      let s ← tryIntoNat scale
      pure (ValueSchema.decimal (DecimalSchema.int32 p s))
  | .int64, .uint64 => pure ValueSchema.u64
  | .int64, .int64 | .int64, .none => pure ValueSchema.i64
  | .int64, .timeMicros => pure (ValueSchema.time TimeSchema.micros)
  | .int64, .timestampMillis => pure (ValueSchema.timestamp TimestampSchema.millis)
  | .int64, .timestampMicros => pure (ValueSchema.timestamp TimestampSchema.micros)
  | .int64, .decimal => do
      let p ← tryIntoNat precision
      let s ← tryIntoNat scale
      pure (ValueSchema.decimal (DecimalSchema.int64 p s))
  | .int96, .none => pure (ValueSchema.timestamp TimestampSchema.int96)
  | .float, .none => pure ValueSchema.f32
  | .double, .none => pure ValueSchema.f64
  | .byteArray, .utf8 | .fixedLenByteArray, .utf8 => do
      let l ← flbaLen physical typeLength
      pure (ValueSchema.string l)
  | .byteArray, .json | .fixedLenByteArray, .json => do
      let l ← flbaLen physical typeLength
      pure (ValueSchema.json l)
  | .byteArray, .enum | .fixedLenByteArray, .enum => do
      let l ← flbaLen physical typeLength
      pure (ValueSchema.enum l)
  | .byteArray, .none | .fixedLenByteArray, .none => do
      let l ← flbaLen physical typeLength
      pure (ValueSchema.byteArray l)
  | .byteArray, .bson | .fixedLenByteArray, .bson => do
      let l ← flbaLen physical typeLength
      pure (ValueSchema.bson l)
  | .byteArray, .decimal | .fixedLenByteArray, .decimal => do
      let l ← flbaLen physical typeLength
      let p ← tryIntoNat precision
      let s ← tryIntoNat scale
      pure (ValueSchema.decimal (DecimalSchema.array l p s))
  | .byteArray, .interval | .fixedLenByteArray, .interval =>
      PResult.panicked "Interval logical type not yet implemented"
  | .boolean, _ => pure ValueSchema.bool
  | .int32, _ => pure ValueSchema.i32
  | .int64, _ => pure ValueSchema.i64
  | .int96, _ => pure (ValueSchema.timestamp TimestampSchema.int96)
  | .float, _ => pure ValueSchema.f32
  | .double, _ => pure ValueSchema.f64
  | .byteArray, _ | .fixedLenByteArray, _ => do
      let l ← flbaLen physical typeLength
      pure (ValueSchema.byteArray l)

mutual

/-- `Value::parse` (`value.rs` lines 1495–1741): primitive, list, map and
group classification in order, then the repetition lift. -/
def valueParse (schema : PType) (repetition : Option Repetition) :
    PResult (String × ValueSchema) := do
  -- `let mut value = None;` then: try parsing as a primitive.
  let value1 : Option ValueSchema ←
    if repetition.isSome && schema.isPrimitive then
      match schema with
      | .primitive _ _ physical logical typeLength precision scale => do
          let v ← parsePrimitive physical logical typeLength precision scale
          pure (some v)
      | .group _ _ _ _ => pure Option.none
    else pure Option.none
  -- Try parsing as a list (excluding unannotated repeated fields):
  -- `parse_list::<Value>(schema).ok().map(|v| ValueSchema::List(..))`.
  let value2 : Option ValueSchema ←
    if repetition.isSome && value1.isNone then do
      let r ← (parseListValue schema).toOpt
      pure (r.map (fun p => ValueSchema.list p.1 p.2))
    else pure value1
  -- Try parsing as a map.
  let value3 : Option ValueSchema ←
    if repetition.isSome && value2.isNone then do
      let r ← (parseMapValue schema).toOpt
      pure r
    else pure value2
  -- Try parsing as a group.
  let value4 : Option ValueSchema ←
    if repetition.isSome && value3.isNone && schema.isGroup then
      match schema with
      | .group _ _ _ fields => do
          let (names, fieldSchemas) ← parseGroupFields fields []
          pure (some (ValueSchema.group fieldSchemas names))
      | .primitive _ _ _ _ _ _ _ => pure value3
    else pure value3
  -- If we haven't parsed it by now it's not valid.
  let value ← match value4 with
    | some v => pure v
    | Option.none => PResult.err "Can't parse value"
  -- Account for the repetition level (`repetition.unwrap()`).
  match repetition with
  | some Repetition.optional => pure (schema.name, ValueSchema.option value)
  | some Repetition.repeated =>
      pure (schema.name, ValueSchema.list value ListSchemaType.repeated)
  | some Repetition.required => pure (schema.name, value)
  | Option.none => PResult.panicked "called Option::unwrap on a None value"

/-- `parse_list::<Value>` (`list.rs` lines 44–87).  Returns the components of
the `ListSchema` (element schema, list-schema kind). -/
def parseListValue (schema : PType) : PResult (ValueSchema × ListSchemaType) :=
  match schema with
  | .group name _ logical [sub] =>
      if logical = LogicalType.list then
        if sub.repetitionOf = Repetition.repeated then
          match sub with
          | .group subName subRep subLogical [element] =>
              if subName ≠ "array" ∧ subName ≠ name ++ "_tuple" then do
                let listName : Option String :=
                  if subName = "list" then Option.none else some subName
                let elementName : Option String :=
                  if element.name = "element" then Option.none else some element.name
                let pr ← valueParse element (some element.repetitionOf)
                pure (pr.2, ListSchemaType.list listName elementName)
              else do
                let pr ← valueParse (PType.group subName subRep subLogical [element])
                  (some Repetition.repeated)
                pure (pr.2, ListSchemaType.listCompat subName)
          | sub => do
              let pr ← valueParse sub (some Repetition.repeated)
              pure (pr.2, ListSchemaType.listCompat sub.name)
        else PResult.err "Couldn't parse List<T>"
      else PResult.err "Couldn't parse List<T>"
  | _ => PResult.err "Couldn't parse List<T>"

/-- Modelled from the spec: `parse_map::<Value, Value>`
(`src/record/types/map.rs` is not among the provided sources).  §4.1 rule 4
with §4.4: a group annotated `Map` or `MapKeyValue` with exactly one
repeated child of group type with exactly two children (`key` required,
`value` at any repetition) yields `Map(key, value)`; wrapper names are
recorded as for lists (elided when they equal the canonical
`key_value`/`key`/`value`). -/
def parseMapValue (schema : PType) : PResult ValueSchema :=
  match schema with
  | .group _ _ logical [kv] =>
      if logical = LogicalType.map ∨ logical = LogicalType.mapKeyValue then
        if kv.repetitionOf = Repetition.repeated then
          match kv with
          | .group kvName _ _ [k, v] =>
              if k.repetitionOf = Repetition.required then do
                let keyPr ← valueParse k (some Repetition.required)
                let valuePr ← valueParse v (some v.repetitionOf)
                let keyValueName : Option String :=
                  if kvName = "key_value" then Option.none else some kvName
                let keyName : Option String :=
                  if k.name = "key" then Option.none else some k.name
                let valueName : Option String :=
                  if v.name = "value" then Option.none else some v.name
                pure (ValueSchema.map keyPr.2 valuePr.2 keyValueName keyName valueName)
              else PResult.err "Couldn't parse Map<K,V>"
          | _ => PResult.err "Couldn't parse Map<K,V>"
        else PResult.err "Couldn't parse Map<K,V>"
      else PResult.err "Couldn't parse Map<K,V>"
  | _ => PResult.err "Couldn't parse Map<K,V>"

/-- The field loop of `Value::parse`'s group branch (`value.rs` lines
1699–1719): parse every field with its declared repetition, recording each
name with sequential index and asserting the name is fresh (`assert!` is a
panic on a duplicate). -/
def parseGroupFields (fields : List PType) (seen : List String) :
    PResult (List String × List ValueSchema) :=
  match fields with
  | [] => pure ([], [])
  | f :: rest => do
      let pr ← valueParse f (some f.repetitionOf)
      if seen.contains pr.1 then
        PResult.panicked "assertion failed: x.is_none()"
      else do
        let tail ← parseGroupFields rest (seen ++ [pr.1])
        pure (pr.1 :: tail.1, pr.2 :: tail.2)

end

/-! Basic computation lemmas for the `PResult` monad. -/

@[simp]
theorem PResult.ok_bind {α β : Type} (a : α) (f : α → PResult β) :
    PResult.ok a >>= f = f a := rfl

@[simp]
theorem PResult.err_bind {α β : Type} (m : String) (f : α → PResult β) :
    (PResult.err m : PResult α) >>= f = PResult.err m := rfl

@[simp]
theorem PResult.panicked_bind {α β : Type} (m : String) (f : α → PResult β) :
    (PResult.panicked m : PResult α) >>= f = PResult.panicked m := rfl

@[simp]
theorem PResult.pure_eq_ok {α : Type} (a : α) :
    (pure a : PResult α) = PResult.ok a := rfl

@[simp]
theorem PResult.bind_eq_bind {α β : Type} (x : PResult α) (f : α → PResult β) :
    PResult.bind x f = x >>= f := rfl

set_option maxHeartbeats 1000000 in
/-- The classification performed by `Value::parse` does not depend on which
repetition was passed, only on its presence; the final `match` then wraps the
core shape.  Relating the three repetitions through the `Required` result
exhibits the repetition lift. -/
theorem valueParse_lift (t : PType) (r : Repetition) :
    valueParse t (some r) =
      (valueParse t (some Repetition.required)) >>= (fun p =>
        match r with
        | Repetition.required => PResult.ok p
        | Repetition.optional => PResult.ok (p.1, ValueSchema.option p.2)
        | Repetition.repeated =>
            PResult.ok (p.1, ValueSchema.list p.2 ListSchemaType.repeated)) := by
  cases t with
  | primitive n rep pt lt tl p s =>
      cases hp : parsePrimitive pt lt tl p s <;>
        cases r <;>
        simp [valueParse, hp, PType.isPrimitive, PType.name, PResult.bind]
  | group n rep lt fs =>
      cases hl : parseListValue (PType.group n rep lt fs) with
      | ok pr =>
          cases r <;>
            simp [valueParse, hl, PType.isPrimitive, PType.isGroup, PType.name,
              PResult.toOpt, PResult.bind]
      | panicked m =>
          cases r <;>
            simp [valueParse, hl, PType.isPrimitive, PType.isGroup, PType.name,
              PResult.toOpt, PResult.bind]
      | err m =>
          cases hm : parseMapValue (PType.group n rep lt fs) with
          | ok mv =>
              cases r <;>
                simp [valueParse, hl, hm, PType.isPrimitive, PType.isGroup, PType.name,
                  PResult.toOpt, PResult.bind]
          | panicked m2 =>
              cases r <;>
                simp [valueParse, hl, hm, PType.isPrimitive, PType.isGroup, PType.name,
                  PResult.toOpt, PResult.bind]
          | err m2 =>
              cases hg : parseGroupFields fs [] with
              | ok pr =>
                  cases r <;>
                    simp [valueParse, hl, hm, hg, PType.isPrimitive, PType.isGroup,
                      PType.name, PType.getFields, PResult.toOpt, PResult.bind]
              | err m3 =>
                  cases r <;>
                    simp [valueParse, hl, hm, hg, PType.isPrimitive, PType.isGroup,
                      PType.name, PType.getFields, PResult.toOpt, PResult.bind]
              | panicked m3 =>
                  cases r <;>
                    simp [valueParse, hl, hm, hg, PType.isPrimitive, PType.isGroup,
                      PType.name, PType.getFields, PResult.toOpt, PResult.bind]

/-- A successful pure result whose payload is not an `Option` schema. -/
theorem rno_pure (x : ValueSchema) (hx : x.isOption = false) :
    ∀ v, (pure x : PResult ValueSchema) = PResult.ok v → v.isOption = false := by
  intro v h
  cases h
  exact hx

/-- An error outcome is never `ok`. -/
theorem rno_err (m : String) :
    ∀ v, (PResult.err m : PResult ValueSchema) = PResult.ok v → v.isOption = false := by
  intro v h
  cases h

/-- A panic outcome is never `ok`. -/
theorem rno_panicked (m : String) :
    ∀ v, (PResult.panicked m : PResult ValueSchema) = PResult.ok v →
      v.isOption = false := by
  intro v h
  cases h

/-- `bind` preserves "a successful result is not an `Option` schema". -/
theorem rno_bind {α : Type} (m : PResult α) (f : α → PResult ValueSchema)
    (hf : ∀ a v, f a = PResult.ok v → v.isOption = false) :
    ∀ v, (m >>= f) = PResult.ok v → v.isOption = false := by
  cases m with
  | ok a => exact hf a
  | err m => exact rno_err m
  | panicked m => exact rno_panicked m

/-- The primitive table never produces an `Option` schema. -/
theorem parsePrimitive_not_option (pt : PhysicalType) (lt : LogicalType)
    (tl p s : Int) :
    ∀ v, parsePrimitive pt lt tl p s = PResult.ok v → v.isOption = false := by
  cases pt <;> cases lt <;>
    simp only [parsePrimitive] <;>
    first
      | exact rno_panicked _
      | exact rno_pure _ rfl
      | (apply rno_bind _ _
         intro a
         first
           | exact rno_pure _ rfl
           | (apply rno_bind _ _
              intro b
              first
                | exact rno_pure _ rfl
                | (apply rno_bind _ _
                   intro c
                   exact rno_pure _ rfl)))

/-- `parse_map` never produces an `Option` schema (it returns the `Map`
composite or an error). -/
theorem parseMapValue_not_option (t : PType) :
    ∀ v, parseMapValue t = PResult.ok v → v.isOption = false := by
  intro v h
  rw [parseMapValue.eq_def] at h
  repeat' split at h
  all_goals first
    | cases h
    | (refine rno_bind _ _ (fun a => rno_bind _ _ (fun b => rno_pure _ ?_)) v h
       rfl)

set_option maxHeartbeats 1000000 in
/-- Successful `Required` inference never returns an `Option` wrapper: the
core shapes are primitive atoms, `List`, `Map` or `Group`. -/
theorem valueParse_required_not_option (t : PType) (n : String) (s : ValueSchema)
    (h : valueParse t (some Repetition.required) = PResult.ok (n, s)) :
    s.isOption = false := by
  cases t with
  | primitive nm rep pt lt tl pr sc =>
      cases hp : parsePrimitive pt lt tl pr sc with
      | ok v =>
          simp [valueParse, hp, PType.isPrimitive, PType.name] at h
          cases h with
          | intro h1 h2 => exact h2 ▸ parsePrimitive_not_option pt lt tl pr sc v hp
      | err m => simp [valueParse, hp, PType.isPrimitive] at h
      | panicked m => simp [valueParse, hp, PType.isPrimitive] at h
  | group nm rep lt fs =>
      cases hl : parseListValue (PType.group nm rep lt fs) with
      | ok pr =>
          simp [valueParse, hl, PType.isPrimitive, PType.isGroup, PType.name,
            PResult.toOpt] at h
          cases h with
          | intro h1 h2 => simp [← h2, ValueSchema.isOption]
      | panicked m => simp [valueParse, hl, PType.isPrimitive, PResult.toOpt] at h
      | err m =>
          cases hm : parseMapValue (PType.group nm rep lt fs) with
          | ok mv =>
              simp [valueParse, hl, hm, PType.isPrimitive, PType.isGroup, PType.name,
                PResult.toOpt] at h
              cases h with
              | intro h1 h2 =>
                  exact h2 ▸ parseMapValue_not_option (PType.group nm rep lt fs) mv hm
          | panicked m2 =>
              simp [valueParse, hl, hm, PType.isPrimitive, PType.isGroup,
                PResult.toOpt] at h
          | err m2 =>
              cases hg : parseGroupFields fs [] with
              | ok pr =>
                  simp [valueParse, hl, hm, hg, PType.isPrimitive, PType.isGroup,
                    PType.name, PType.getFields, PResult.toOpt] at h
                  cases h with
                  | intro h1 h2 => simp [← h2, ValueSchema.isOption]
              | err m3 =>
                  simp [valueParse, hl, hm, hg, PType.isPrimitive, PType.isGroup,
                    PType.getFields, PResult.toOpt] at h
              | panicked m3 =>
                  simp [valueParse, hl, hm, hg, PType.isPrimitive, PType.isGroup,
                    PType.getFields, PResult.toOpt] at h

/-- With no repetition at hand, none of the four classification branches of
`Value::parse` runs, so the parse fails. -/
theorem valueParse_none (t : PType) :
    valueParse t Option.none = PResult.err "Can't parse value" := by
  rw [valueParse.eq_def]
  simp

/-- C1: repetition lift of schema inference.  For a classified node, an
`Optional` outer repetition wraps the core shape in `Option` (and the core is
never itself an `Option`); `Repeated` wraps it in `List(_, BareRepeated)`
(`ListSchemaType.repeated`); `Required` returns the core unchanged; and with
the top-level `None` repetition no core shape is ever classified, so the
pass-through holds vacuously. -/
theorem claim_C1 (t : PType) :
    valueParse t (some Repetition.optional) =
        (valueParse t (some Repetition.required)) >>= (fun p =>
          PResult.ok (p.1, ValueSchema.option p.2))
      ∧ valueParse t (some Repetition.repeated) =
        (valueParse t (some Repetition.required)) >>= (fun p =>
          PResult.ok (p.1, ValueSchema.list p.2 ListSchemaType.repeated))
      ∧ (∀ n s, valueParse t (some Repetition.required) = PResult.ok (n, s) →
          s.isOption = false)
      ∧ valueParse t Option.none = PResult.err "Can't parse value" :=
  ⟨valueParse_lift t Repetition.optional,
   valueParse_lift t Repetition.repeated,
   fun n s h => valueParse_required_not_option t n s h,
   valueParse_none t⟩

/-- A concrete `required int32 x;` node, used to witness C1. -/
def reqI32Node : PType :=
  PType.primitive "x" Repetition.required PhysicalType.int32 LogicalType.none 0 0 0

/-- Witness for C1 at the node `required int32 x;`: the hypothesis of the
third conjunct is discharged by evaluating the parse. -/
theorem claim_C1_witness : ValueSchema.i32.isOption = false :=
  (claim_C1 reqI32Node).2.2.1 "x" ValueSchema.i32
    (by simp [reqI32Node, valueParse, parsePrimitive, PType.isPrimitive, PType.name])

/-- A concrete `required byte_array iv (INTERVAL);` node. -/
def intervalNode : PType :=
  PType.primitive "iv" Repetition.required PhysicalType.byteArray
    LogicalType.interval 0 0 0

/-- C2 counterexample: at an `Interval`-annotated byte-array node, inference
does not return an error kind to the caller — it aborts through the source's
`unimplemented!` panic (modelled as the `panicked` outcome). -/
theorem claim_C2_counterexample :
    valueParse intervalNode (some Repetition.required) =
        PResult.panicked "Interval logical type not yet implemented"
      ∧ (valueParse intervalNode (some Repetition.required)).isReturnedErr = false := by
  constructor <;>
    simp [intervalNode, valueParse, parsePrimitive, PType.isPrimitive,
      PResult.isReturnedErr]

/-- C2 (amended): for every primitive node whose logical annotation is
`Interval` over `ByteArray` or `FixedLenByteArray`, and any outer repetition,
inference aborts with the explicit panic
"Interval logical type not yet implemented" (the source's `unimplemented!`)
instead of returning an error kind. -/
theorem claim_C2 (name : String) (r outer : Repetition) (pt : PhysicalType)
    (hpt : pt = PhysicalType.byteArray ∨ pt = PhysicalType.fixedLenByteArray)
    (tl p s : Int) :
    valueParse (PType.primitive name r pt LogicalType.interval tl p s)
        (some outer) =
      PResult.panicked "Interval logical type not yet implemented" := by
  rcases hpt with h | h <;> subst h <;>
    simp [valueParse, parsePrimitive, PType.isPrimitive]

/-- Witness for C2 at a concrete fixed-length interval node. -/
theorem claim_C2_witness :
    valueParse (PType.primitive "iv2" Repetition.optional
        PhysicalType.fixedLenByteArray LogicalType.interval 12 0 0)
        (some Repetition.optional) =
      PResult.panicked "Interval logical type not yet implemented" :=
  claim_C2 "iv2" Repetition.optional Repetition.optional
    PhysicalType.fixedLenByteArray (Or.inr rfl) 12 0 0

/-- The `repeated int32 array;` child of the legacy two-level list schema. -/
def arrayField : PType :=
  PType.primitive "array" Repetition.repeated PhysicalType.int32 LogicalType.none 0 0 0

/-- The S3 schema `required group xs (LIST) { repeated int32 array; }`. -/
def legacyListNode : PType :=
  PType.group "xs" Repetition.required LogicalType.list [arrayField]

/-- C3: evaluating inference on the legacy two-level list schema
`required group xs (LIST) { repeated int32 array; }`.  The element wrapper
name "array" is recorded (`ListSchemaType.listCompat "array"`), but the
element schema is not the `int32` primitive: `parse_list`'s legacy branch
re-parses the repeated child with repetition `Repeated`, so the repetition
lift wraps the element in a second, bare-repeated list. -/
theorem claim_C3_eval :
    valueParse legacyListNode (some Repetition.required) =
      PResult.ok ("xs",
        ValueSchema.list (ValueSchema.list ValueSchema.i32 ListSchemaType.repeated)
          (ListSchemaType.listCompat "array")) := by
  simp [legacyListNode, arrayField, valueParse, parseListValue, parsePrimitive,
    PType.isPrimitive, PType.isGroup, PType.name, PType.repetitionOf,
    PResult.toOpt]

/-- Three-level branch of `parse_list`: a `LIST` group whose single repeated
child is a group with exactly one field and a non-sentinel name takes the
grandchild as element, eliding the names `"list"` and `"element"`. -/
theorem parseListValue_threeLevel (name : String) (rep : Repetition)
    (subName : String) (subRep : Repetition) (subLogical : LogicalType)
    (element : PType)
    (hrep : subRep = Repetition.repeated)
    (ha : subName ≠ "array") (ht : subName ≠ name ++ "_tuple") :
    parseListValue (PType.group name rep LogicalType.list
        [PType.group subName subRep subLogical [element]]) =
      (valueParse element (some element.repetitionOf)) >>= (fun pr =>
        PResult.ok (pr.2,
          ListSchemaType.list
            (if subName = "list" then Option.none else some subName)
            (if element.name = "element" then Option.none else some element.name))) := by
  subst hrep
  cases hv : valueParse element (some element.repetitionOf) <;>
    simp [parseListValue, hv, ha, ht]

/-- Legacy branch of `parse_list`: when the single repeated child is not a
one-field group with a non-sentinel name, the child itself is the element and
its name is recorded. -/
theorem parseListValue_legacy (name : String) (rep : Repetition) (sub : PType)
    (hrep : sub.repetitionOf = Repetition.repeated)
    (hshape : sub.isGroup = false ∨ sub.getFields.length ≠ 1 ∨
      sub.name = "array" ∨ sub.name = name ++ "_tuple") :
    parseListValue (PType.group name rep LogicalType.list [sub]) =
      (valueParse sub (some Repetition.repeated)) >>= (fun pr =>
        PResult.ok (pr.2, ListSchemaType.listCompat sub.name)) := by
  cases sub with
  | primitive pn pr2 pt lt tl prc sc =>
      cases hv : valueParse (PType.primitive pn pr2 pt lt tl prc sc)
          (some Repetition.repeated) <;>
        simp_all [parseListValue, PType.repetitionOf, PType.name]
  | group gn gr gl gfs =>
      rcases hshape with h | h | h | h
      · simp [PType.isGroup] at h
      · match gfs with
        | [] =>
            cases hv : valueParse (PType.group gn gr gl [])
                (some Repetition.repeated) <;>
              simp_all [parseListValue, PType.repetitionOf, PType.name]
        | [e] => simp [PType.getFields] at h
        | e1 :: e2 :: rest =>
            cases hv : valueParse (PType.group gn gr gl (e1 :: e2 :: rest))
                (some Repetition.repeated) <;>
              simp_all [parseListValue, PType.repetitionOf, PType.name]
      · match gfs with
        | [] =>
            cases hv : valueParse (PType.group gn gr gl [])
                (some Repetition.repeated) <;>
              simp_all [parseListValue, PType.repetitionOf, PType.name]
        | [e] =>
            simp [PType.name] at h
            cases hv : valueParse (PType.group gn gr gl [e])
                (some Repetition.repeated) <;>
              simp_all [parseListValue, PType.repetitionOf, PType.name]
        | e1 :: e2 :: rest =>
            cases hv : valueParse (PType.group gn gr gl (e1 :: e2 :: rest))
                (some Repetition.repeated) <;>
              simp_all [parseListValue, PType.repetitionOf, PType.name]
      · match gfs with
        | [] =>
            cases hv : valueParse (PType.group gn gr gl [])
                (some Repetition.repeated) <;>
              simp_all [parseListValue, PType.repetitionOf, PType.name]
        | [e] =>
            simp [PType.name] at h
            cases hv : valueParse (PType.group gn gr gl [e])
                (some Repetition.repeated) <;>
              simp_all [parseListValue, PType.repetitionOf, PType.name]
        | e1 :: e2 :: rest =>
            cases hv : valueParse (PType.group gn gr gl (e1 :: e2 :: rest))
                (some Repetition.repeated) <;>
              simp_all [parseListValue, PType.repetitionOf, PType.name]

/-- Any node that is not a `LIST`-annotated group with exactly one repeated
child fails `parse_list` with an error. -/
theorem parseListValue_err (t : PType)
    (hshape : t.isGroup = false ∨ t.logicalOf ≠ LogicalType.list ∨
      t.getFields.length ≠ 1 ∨
      (∀ sub, t.getFields = [sub] → sub.repetitionOf ≠ Repetition.repeated)) :
    parseListValue t = PResult.err "Couldn't parse List<T>" := by
  cases t with
  | primitive pn pr2 pt lt tl prc sc => simp [parseListValue]
  | group gn gr gl gfs =>
      rcases gfs with _ | ⟨e, rest⟩
      · simp [parseListValue]
      · rcases rest with _ | ⟨e2, rest2⟩
        · rcases hshape with h | h | h | h
          · simp at h
          · simp at h
            rw [parseListValue.eq_def]
            simp [h]
          · simp at h
          · have he := h e (by simp)
            rw [parseListValue.eq_def]
            by_cases hgl : gl = LogicalType.list <;> simp [hgl, he]
        · simp [parseListValue]

/-- C4: list detection.  For a `LIST`-annotated group with exactly one
repeated child: a one-field-group child whose name is neither `"array"` nor
`"<outer>_tuple"` yields the three-level decoding (grandchild element,
`"list"`/`"element"` names elided); any other repeated child is the legacy
two-level element with its name recorded; every other shape fails with an
error. -/
theorem claim_C4 :
    (∀ (name : String) (rep : Repetition) (subName : String) (subRep : Repetition)
        (subLogical : LogicalType) (element : PType),
      subRep = Repetition.repeated → subName ≠ "array" →
      subName ≠ name ++ "_tuple" →
      parseListValue (PType.group name rep LogicalType.list
          [PType.group subName subRep subLogical [element]]) =
        (valueParse element (some element.repetitionOf)) >>= (fun pr =>
          PResult.ok (pr.2,
            ListSchemaType.list
              (if subName = "list" then Option.none else some subName)
              (if element.name = "element" then Option.none
               else some element.name))))
    ∧ (∀ (name : String) (rep : Repetition) (sub : PType),
        sub.repetitionOf = Repetition.repeated →
        (sub.isGroup = false ∨ sub.getFields.length ≠ 1 ∨
          sub.name = "array" ∨ sub.name = name ++ "_tuple") →
        parseListValue (PType.group name rep LogicalType.list [sub]) =
          (valueParse sub (some Repetition.repeated)) >>= (fun pr =>
            PResult.ok (pr.2, ListSchemaType.listCompat sub.name)))
    ∧ (∀ t : PType,
        (t.isGroup = false ∨ t.logicalOf ≠ LogicalType.list ∨
          t.getFields.length ≠ 1 ∨
          (∀ sub, t.getFields = [sub] → sub.repetitionOf ≠ Repetition.repeated)) →
        parseListValue t = PResult.err "Couldn't parse List<T>") :=
  ⟨fun name rep subName subRep subLogical element h1 h2 h3 =>
      parseListValue_threeLevel name rep subName subRep subLogical element h1 h2 h3,
   fun name rep sub h1 h2 => parseListValue_legacy name rep sub h1 h2,
   fun t h => parseListValue_err t h⟩

/-- The three-level S2 element `required int32 element;`. -/
def elementField : PType :=
  PType.primitive "element" Repetition.required PhysicalType.int32 LogicalType.none 0 0 0

/-- The S2 middle wrapper `repeated group list { required int32 element; }`. -/
def listWrapperField : PType :=
  PType.group "list" Repetition.repeated LogicalType.none [elementField]

/-- Witness for C4: the three-level branch evaluated on the S2 schema
`required group xs (LIST) { repeated group list { required int32 element; } }`
elides both canonical wrapper names. -/
theorem claim_C4_witness :
    parseListValue (PType.group "xs" Repetition.required LogicalType.list
        [listWrapperField]) =
      PResult.ok (ValueSchema.i32,
        ListSchemaType.list Option.none Option.none) := by
  have h := (claim_C4).1 "xs" Repetition.required "list" Repetition.repeated
    LogicalType.none elementField rfl (by decide) (by decide)
  rw [listWrapperField, h]
  simp [elementField, valueParse, parsePrimitive, PType.isPrimitive, PType.name,
    PType.repetitionOf]

/-- On a primitive node with `Required` repetition, `Value::parse` is exactly
the primitive table paired with the node's name. -/
theorem valueParse_primitive_required (n : String) (r : Repetition)
    (pt : PhysicalType) (lt : LogicalType) (tl p s : Int) :
    valueParse (PType.primitive n r pt lt tl p s) (some Repetition.required) =
      (parsePrimitive pt lt tl p s) >>= (fun v => PResult.ok (n, v)) := by
  cases hp : parsePrimitive pt lt tl p s <;> simp [valueParse, hp]

/-- C5: primitive detection.  Inference on a primitive node is the
`(physical type, logical type)` table (first conjunct); the table maps each
key row to its schema atom, falls back by physical type alone on an
unrecognized logical type, and records the declared length for
fixed-length byte arrays. -/
theorem claim_C5 :
    (∀ (n : String) (r : Repetition) (pt : PhysicalType) (lt : LogicalType)
        (tl p s : Int),
      valueParse (PType.primitive n r pt lt tl p s) (some Repetition.required) =
        (parsePrimitive pt lt tl p s) >>= (fun v => PResult.ok (n, v)))
    ∧ (∀ tl p s : Int,
        parsePrimitive PhysicalType.boolean LogicalType.none tl p s =
          PResult.ok ValueSchema.bool
        ∧ parsePrimitive PhysicalType.int32 LogicalType.uint8 tl p s =
          PResult.ok ValueSchema.u8
        ∧ parsePrimitive PhysicalType.int32 LogicalType.int8 tl p s =
          PResult.ok ValueSchema.i8
        ∧ parsePrimitive PhysicalType.int32 LogicalType.uint16 tl p s =
          PResult.ok ValueSchema.u16
        ∧ parsePrimitive PhysicalType.int32 LogicalType.int16 tl p s =
          PResult.ok ValueSchema.i16
        ∧ parsePrimitive PhysicalType.int32 LogicalType.uint32 tl p s =
          PResult.ok ValueSchema.u32
        ∧ parsePrimitive PhysicalType.int32 LogicalType.int32 tl p s =
          PResult.ok ValueSchema.i32
        ∧ parsePrimitive PhysicalType.int32 LogicalType.none tl p s =
          PResult.ok ValueSchema.i32
        ∧ parsePrimitive PhysicalType.int32 LogicalType.date tl p s =
          PResult.ok ValueSchema.date
        ∧ parsePrimitive PhysicalType.int32 LogicalType.timeMillis tl p s =
          PResult.ok (ValueSchema.time TimeSchema.millis)
        ∧ parsePrimitive PhysicalType.int64 LogicalType.uint64 tl p s =
          PResult.ok ValueSchema.u64
        ∧ parsePrimitive PhysicalType.int64 LogicalType.int64 tl p s =
          PResult.ok ValueSchema.i64
        ∧ parsePrimitive PhysicalType.int64 LogicalType.none tl p s =
          PResult.ok ValueSchema.i64
        ∧ parsePrimitive PhysicalType.int64 LogicalType.timeMicros tl p s =
          PResult.ok (ValueSchema.time TimeSchema.micros)
        ∧ parsePrimitive PhysicalType.int64 LogicalType.timestampMillis tl p s =
          PResult.ok (ValueSchema.timestamp TimestampSchema.millis)
        ∧ parsePrimitive PhysicalType.int64 LogicalType.timestampMicros tl p s =
          PResult.ok (ValueSchema.timestamp TimestampSchema.micros)
        ∧ parsePrimitive PhysicalType.int96 LogicalType.none tl p s =
          PResult.ok (ValueSchema.timestamp TimestampSchema.int96)
        ∧ parsePrimitive PhysicalType.float LogicalType.none tl p s =
          PResult.ok ValueSchema.f32
        ∧ parsePrimitive PhysicalType.double LogicalType.none tl p s =
          PResult.ok ValueSchema.f64
        ∧ parsePrimitive PhysicalType.byteArray LogicalType.utf8 tl p s =
          PResult.ok (ValueSchema.string Option.none)
        ∧ parsePrimitive PhysicalType.byteArray LogicalType.json tl p s =
          PResult.ok (ValueSchema.json Option.none)
        ∧ parsePrimitive PhysicalType.byteArray LogicalType.enum tl p s =
          PResult.ok (ValueSchema.enum Option.none)
        ∧ parsePrimitive PhysicalType.byteArray LogicalType.bson tl p s =
          PResult.ok (ValueSchema.bson Option.none)
        ∧ parsePrimitive PhysicalType.byteArray LogicalType.none tl p s =
          PResult.ok (ValueSchema.byteArray Option.none))
    ∧ (∀ p s : Nat,
        parsePrimitive PhysicalType.int32 LogicalType.decimal 0 (p : Int) (s : Int) =
          PResult.ok (ValueSchema.decimal (DecimalSchema.int32 p s))
        ∧ parsePrimitive PhysicalType.int64 LogicalType.decimal 0 (p : Int) (s : Int) =
          PResult.ok (ValueSchema.decimal (DecimalSchema.int64 p s))
        ∧ parsePrimitive PhysicalType.byteArray LogicalType.decimal 0
            (p : Int) (s : Int) =
          PResult.ok (ValueSchema.decimal
            (DecimalSchema.array Option.none p s)))
    ∧ (∀ (len : Nat) (p s : Int),
        parsePrimitive PhysicalType.fixedLenByteArray LogicalType.utf8
            (len : Int) p s =
          PResult.ok (ValueSchema.string (some len))
        ∧ parsePrimitive PhysicalType.fixedLenByteArray LogicalType.none
            (len : Int) p s =
          PResult.ok (ValueSchema.byteArray (some len)))
    ∧ (∀ (len ps ss : Nat),
        parsePrimitive PhysicalType.fixedLenByteArray LogicalType.decimal
            (len : Int) (ps : Int) (ss : Int) =
          PResult.ok (ValueSchema.decimal (DecimalSchema.array (some len) ps ss)))
    ∧ (∀ (lt : LogicalType) (tl p s : Int),
        (lt ∉ [LogicalType.uint8, LogicalType.int8, LogicalType.uint16,
          LogicalType.int16, LogicalType.uint32, LogicalType.int32,
          LogicalType.none, LogicalType.date, LogicalType.timeMillis,
          LogicalType.decimal] →
          parsePrimitive PhysicalType.int32 lt tl p s = PResult.ok ValueSchema.i32)
        ∧ (lt ∉ [LogicalType.uint64, LogicalType.int64, LogicalType.none,
            LogicalType.timeMicros, LogicalType.timestampMillis,
            LogicalType.timestampMicros, LogicalType.decimal] →
          parsePrimitive PhysicalType.int64 lt tl p s = PResult.ok ValueSchema.i64)
        ∧ (lt ≠ LogicalType.none →
          parsePrimitive PhysicalType.int96 lt tl p s =
            PResult.ok (ValueSchema.timestamp TimestampSchema.int96))
        ∧ (lt ≠ LogicalType.none →
          parsePrimitive PhysicalType.float lt tl p s = PResult.ok ValueSchema.f32)
        ∧ (lt ≠ LogicalType.none →
          parsePrimitive PhysicalType.double lt tl p s = PResult.ok ValueSchema.f64)
        ∧ (lt ∉ [LogicalType.utf8, LogicalType.json, LogicalType.enum,
            LogicalType.none, LogicalType.bson, LogicalType.decimal,
            LogicalType.interval] →
          parsePrimitive PhysicalType.byteArray lt tl p s =
            PResult.ok (ValueSchema.byteArray Option.none))) := by
  refine ⟨valueParse_primitive_required, ?_, ?_, ?_, ?_, ?_⟩
  · intro tl p s
    refine ⟨?_, ?_, ?_, ?_, ?_, ?_, ?_, ?_, ?_, ?_, ?_, ?_, ?_, ?_, ?_, ?_, ?_,
      ?_, ?_, ?_, ?_, ?_, ?_, ?_⟩ <;>
      simp [parsePrimitive, flbaLen]
  · intro p s
    refine ⟨?_, ?_, ?_⟩ <;> simp [parsePrimitive, flbaLen, tryIntoNat]
  · intro len p s
    refine ⟨?_, ?_⟩ <;> simp [parsePrimitive, flbaLen, tryIntoNat]
  · intro len ps ss
    simp [parsePrimitive, flbaLen, tryIntoNat]
  · intro lt tl p s
    refine ⟨?_, ?_, ?_, ?_, ?_, ?_⟩ <;>
      intro h <;>
      cases lt <;>
      first
        | exact absurd (by decide) h
        | simp [parsePrimitive, flbaLen]

/-- Witness for C5: the fallback conjuncts applied at the concrete
unrecognized logical type `Bson` over `Int32`. -/
theorem claim_C5_witness :
    parsePrimitive PhysicalType.int32 LogicalType.bson 0 0 0 =
      PResult.ok ValueSchema.i32 :=
  ((claim_C5).2.2.2.2.2 LogicalType.bson 0 0 0).1 (by decide)

/-!
The dynamic value `Value` (`value.rs` lines 50–105) and its payload types.
The payload types (`Date`, `Time`, `Timestamp`, `Decimal`, `Bson`, `Json`,
`Enum`, from `record/types/mod.rs` and `data_type.rs`, which are not among
the provided sources) are modelled as wrappers around their documented
contents; machine integers are modelled as `Nat`/`Int` (none of the
operations verified here perform arithmetic on them), and IEEE floats as
their bit patterns.
-/

/-- Modelled from the spec: `Date` stores the number of days from the Unix
epoch (an `i32`). -/
structure Date : Type where
  days : Int
deriving DecidableEq

/-- Modelled from the spec: `Time` stores the number of microseconds from
midnight. -/
structure Time : Type where
  micros : Nat
deriving DecidableEq

/-- Modelled from the spec: `Timestamp` stores an instant relative to the
Unix epoch (`Int96` in the file format; an opaque integer payload here). -/
structure Timestamp : Type where
  instant : Int
deriving DecidableEq

/-- Modelled from the spec: `Decimal` (from `data_type.rs`) carries an
unscaled integer value with precision and scale. -/
structure Decimal : Type where
  unscaled : Int
  precision : Int
  scale : Int
deriving DecidableEq

/-- BSON binary payload (`Bson(Vec<u8>)`). -/
structure Bson : Type where
  bytes : List Nat
deriving DecidableEq

/-- JSON string payload (`Json(String)`). -/
structure Json : Type where
  str : String
deriving DecidableEq

/-- Enum string payload (`Enum(String)`). -/
structure Enum : Type where
  str : String
deriving DecidableEq

/-- An IEEE-754 single-precision float as its 32 raw bits. -/
structure Float32 : Type where
  bits : Nat
deriving DecidableEq

/-- An IEEE-754 double-precision float as its 64 raw bits. -/
structure Float64 : Type where
  bits : Nat
deriving DecidableEq

/-- `Value` (`value.rs` lines 50–105): one variant per primitive kind plus
`List`, `Map`, `Group` and `Option`.  `List<Value>` is carried as the
element list, `Map<Value, Value>` as its entry list in iteration order,
`Group` as its field values plus the insertion-ordered field names (the
`LinkedHashMap<String, usize>` maps the i-th name to index i), and
`Option<ValueRequired>` as an `Option Value` whose payload is never itself
an `Option` variant (`ValueRequired`, defined in the types module not among
the provided sources, is the sum of all non-`Option` variants). -/
inductive Value : Type
  | bool (v : Bool)
  | u8 (v : Nat)
  | i8 (v : Int)
  | u16 (v : Nat)
  | i16 (v : Int)
  | u32 (v : Nat)
  | i32 (v : Int)
  | u64 (v : Nat)
  | i64 (v : Int)
  | f32 (v : Float32)
  | f64 (v : Float64)
  | date (v : Date)
  | time (v : Time)
  | timestamp (v : Timestamp)
  | decimal (v : Decimal)
  | byteArray (v : List Nat)
  | bson (v : Bson)
  | string (v : String)
  | json (v : Json)
  | enum (v : Enum)
  | list (elems : List Value)
  | map (entries : List (Value × Value))
  | group (fields : List Value) (names : List String)
  | option (v : Option Value)

/-- The `List<T>` wrapper (`list.rs` line 91: `pub struct List<T>(Vec<T>)`). -/
structure ListV (α : Type) : Type where
  elems : List α
deriving DecidableEq

/-- The `Map<K, V>` wrapper (`map.rs`, not among the provided sources:
`Map<K, V>(HashMap<K, V>)`), modelled as its entry list in iteration
order. -/
structure MapV (α β : Type) : Type where
  entries : List (α × β)
deriving DecidableEq

/-- `Group` (`group.rs` lines 49–52): field values plus the shared
insertion-ordered name-to-index map, carried as the name list (the i-th
name maps to index i). -/
structure Group : Type where
  fields : List Value
  names : List String

/-!
The `is_X` predicates and `into_X` extractors of `Value` (`value.rs` lines
207–998).  In this embedding `as_X` and `into_X` coincide (both return the
payload; the source versions differ only in reference semantics), so a
single `into_X` family stands for both.  Extraction failure is the
`ParquetError::General("Cannot access .. as ..")` error. -/

/-- `Value::is_bool`. -/
def Value.is_bool : Value → Bool
  | .bool _ => true
  | _ => false

/-- `Value::is_u8`. -/
def Value.is_u8 : Value → Bool
  | .u8 _ => true
  | _ => false

/-- `Value::is_i8`. -/
def Value.is_i8 : Value → Bool
  | .i8 _ => true
  | _ => false

/-- `Value::is_u16`. -/
def Value.is_u16 : Value → Bool
  | .u16 _ => true
  | _ => false

/-- `Value::is_i16`. -/
def Value.is_i16 : Value → Bool
  | .i16 _ => true
  | _ => false

/-- `Value::is_u32`. -/
def Value.is_u32 : Value → Bool
  | .u32 _ => true
  | _ => false

/-- `Value::is_i32`. -/
def Value.is_i32 : Value → Bool
  | .i32 _ => true
  | _ => false

/-- `Value::is_u64`. -/
def Value.is_u64 : Value → Bool
  | .u64 _ => true
  | _ => false

/-- `Value::is_i64`. -/
def Value.is_i64 : Value → Bool
  | .i64 _ => true
  | _ => false

/-- `Value::is_f32`. -/
def Value.is_f32 : Value → Bool
  | .f32 _ => true
  | _ => false

/-- `Value::is_f64`. -/
def Value.is_f64 : Value → Bool
  | .f64 _ => true
  | _ => false

/-- `Value::is_date`. -/
def Value.is_date : Value → Bool
  | .date _ => true
  | _ => false

/-- `Value::is_time`. -/
def Value.is_time : Value → Bool
  | .time _ => true
  | _ => false

/-- `Value::is_timestamp`. -/
def Value.is_timestamp : Value → Bool
  | .timestamp _ => true
  | _ => false

/-- `Value::is_decimal`. -/
def Value.is_decimal : Value → Bool
  | .decimal _ => true
  | _ => false

/-- `Value::is_byte_array`. -/
def Value.is_byte_array : Value → Bool
  | .byteArray _ => true
  | _ => false

/-- `Value::is_bson`. -/
def Value.is_bson : Value → Bool
  | .bson _ => true
  | _ => false

/-- `Value::is_string`. -/
def Value.is_string : Value → Bool
  | .string _ => true
  | _ => false

/-- `Value::is_json`. -/
def Value.is_json : Value → Bool
  | .json _ => true
  | _ => false

/-- `Value::is_enum`. -/
def Value.is_enum : Value → Bool
  | .enum _ => true
  | _ => false

/-- `Value::is_list`. -/
def Value.is_list : Value → Bool
  | .list _ => true
  | _ => false

/-- `Value::is_map`. -/
def Value.is_map : Value → Bool
  | .map _ => true
  | _ => false

/-- `Value::is_group`. -/
def Value.is_group : Value → Bool
  | .group _ _ => true
  | _ => false

/-- `Value::is_option`. -/
def Value.is_option : Value → Bool
  | .option _ => true
  | _ => false

/-- `Value::into_bool`. -/
def Value.into_bool : Value → PResult Bool
  | .bool v => .ok v
  | _ => .err "Cannot access as bool"

/-- `Value::into_u8`. -/
def Value.into_u8 : Value → PResult Nat
  | .u8 v => .ok v
  | _ => .err "Cannot access as u8"

/-- `Value::into_i8`. -/
def Value.into_i8 : Value → PResult Int
  | .i8 v => .ok v
  | _ => .err "Cannot access as i8"

/-- `Value::into_u16`. -/
def Value.into_u16 : Value → PResult Nat
  | .u16 v => .ok v
  | _ => .err "Cannot access as u16"

/-- `Value::into_i16`. -/
def Value.into_i16 : Value → PResult Int
  | .i16 v => .ok v
  | _ => .err "Cannot access as i16"

/-- `Value::into_u32`. -/
def Value.into_u32 : Value → PResult Nat
  | .u32 v => .ok v
  | _ => .err "Cannot access as u32"

/-- `Value::into_i32`. -/
def Value.into_i32 : Value → PResult Int
  | .i32 v => .ok v
  | _ => .err "Cannot access as i32"

/-- `Value::into_u64`. -/
def Value.into_u64 : Value → PResult Nat
  | .u64 v => .ok v
  | _ => .err "Cannot access as u64"

/-- `Value::into_i64`. -/
def Value.into_i64 : Value → PResult Int
  | .i64 v => .ok v
  | _ => .err "Cannot access as i64"

/-- `Value::into_f32`. -/
def Value.into_f32 : Value → PResult Float32
  | .f32 v => .ok v
  | _ => .err "Cannot access as f32"

/-- `Value::into_f64`. -/
def Value.into_f64 : Value → PResult Float64
  | .f64 v => .ok v
  | _ => .err "Cannot access as f64"

/-- `Value::into_date`. -/
def Value.into_date : Value → PResult Date
  | .date v => .ok v
  | _ => .err "Cannot access as date"

/-- `Value::into_time`. -/
def Value.into_time : Value → PResult Time
  | .time v => .ok v
  | _ => .err "Cannot access as time"

/-- `Value::into_timestamp`. -/
def Value.into_timestamp : Value → PResult Timestamp
  | .timestamp v => .ok v
  | _ => .err "Cannot access as timestamp"

/-- `Value::into_decimal`. -/
def Value.into_decimal : Value → PResult Decimal
  | .decimal v => .ok v
  | _ => .err "Cannot access as decimal"

/-- `Value::into_byte_array`. -/
def Value.into_byte_array : Value → PResult (List Nat)
  | .byteArray v => .ok v
  | _ => .err "Cannot access as byte_array"

/-- `Value::into_bson`. -/
def Value.into_bson : Value → PResult Bson
  | .bson v => .ok v
  | _ => .err "Cannot access as bson"

/-- `Value::into_string`. -/
def Value.into_string : Value → PResult String
  | .string v => .ok v
  | _ => .err "Cannot access as string"

/-- `Value::into_json`. -/
def Value.into_json : Value → PResult Json
  | .json v => .ok v
  | _ => .err "Cannot access as json"

/-- `Value::into_enum`. -/
def Value.into_enum : Value → PResult Enum
  | .enum v => .ok v
  | _ => .err "Cannot access as enum"

/-- `Value::into_list` (for `List<Value>`). -/
def Value.into_list : Value → PResult (ListV Value)
  | .list elems => .ok ⟨elems⟩
  | _ => .err "Cannot access as list"

/-- `Value::into_map` (for `Map<Value, Value>`). -/
def Value.into_map : Value → PResult (MapV Value Value)
  | .map entries => .ok ⟨entries⟩
  | _ => .err "Cannot access as map"

/-- `Value::into_group`. -/
def Value.into_group : Value → PResult Group
  | .group fields names => .ok ⟨fields, names⟩
  | _ => .err "Cannot access as group"

/-- `Value::into_option` (the payload `Option<ValueRequired>` is already an
`Option Value` in this embedding, so the source's `ret.map(Into::into)` is
the identity). -/
def Value.into_option : Value → PResult (Option Value)
  | .option v => .ok v
  | _ => .err "Cannot access as option"

/-!
The `From<T> for Value` conversions (`value.rs` lines 1001–1153) and the
`Downcast<T> for Value` implementations (lines 1158–1322).  The generic
`List<T>`/`Map<K, V>` instances are parametrised by the element conversions
(the source obtains them from the `Value: From<T>` / `Value: Downcast<T>`
bounds). -/

/-- `impl From<bool> for Value`. -/
def Value.fromBool (v : Bool) : Value := .bool v

/-- `impl From<u8> for Value`. -/
def Value.fromU8 (v : Nat) : Value := .u8 v

/-- `impl From<i8> for Value`. -/
def Value.fromI8 (v : Int) : Value := .i8 v

/-- `impl From<u16> for Value`. -/
def Value.fromU16 (v : Nat) : Value := .u16 v

/-- `impl From<i16> for Value`. -/
def Value.fromI16 (v : Int) : Value := .i16 v

/-- `impl From<u32> for Value`. -/
def Value.fromU32 (v : Nat) : Value := .u32 v

/-- `impl From<i32> for Value`. -/
def Value.fromI32 (v : Int) : Value := .i32 v

/-- `impl From<u64> for Value`. -/
def Value.fromU64 (v : Nat) : Value := .u64 v

/-- `impl From<i64> for Value`. -/
def Value.fromI64 (v : Int) : Value := .i64 v

/-- `impl From<f32> for Value`. -/
def Value.fromF32 (v : Float32) : Value := .f32 v

/-- `impl From<f64> for Value`. -/
def Value.fromF64 (v : Float64) : Value := .f64 v

/-- `impl From<Date> for Value`. -/
def Value.fromDate (v : Date) : Value := .date v

/-- `impl From<Time> for Value`. -/
def Value.fromTime (v : Time) : Value := .time v

/-- `impl From<Timestamp> for Value`. -/
def Value.fromTimestamp (v : Timestamp) : Value := .timestamp v

/-- `impl From<Decimal> for Value`. -/
def Value.fromDecimal (v : Decimal) : Value := .decimal v

/-- `impl From<Vec<u8>> for Value`. -/
def Value.fromByteArray (v : List Nat) : Value := .byteArray v

/-- `impl From<Bson> for Value`. -/
def Value.fromBson (v : Bson) : Value := .bson v

/-- `impl From<String> for Value`. -/
def Value.fromString (v : String) : Value := .string v

/-- `impl From<Json> for Value`. -/
def Value.fromJson (v : Json) : Value := .json v

/-- `impl From<Enum> for Value`. -/
def Value.fromEnum (v : Enum) : Value := .enum v

/-- `impl From<List<T>> for Value` where `Value: From<T>`: converts each
element (`value.0.into_iter().map(Into::into).collect()`). -/
def Value.fromListWith {α : Type} (f : α → Value) (l : ListV α) : Value :=
  .list (l.elems.map f)

/-- `impl From<Map<K, V>> for Value` where `Value: From<K> + From<V>`:
converts each key and value. -/
def Value.fromMapWith {α β : Type} (fk : α → Value) (fv : β → Value)
    (m : MapV α β) : Value :=
  .map (m.entries.map (fun kv => (fk kv.1, fv kv.2)))

/-- `impl From<Group> for Value`. -/
def Value.fromGroup (g : Group) : Value := .group g.fields g.names

/-- Short-circuiting `collect::<Result<Vec<_>>>` over a list. -/
def mapMP {α β : Type} (g : α → PResult β) : List α → PResult (List β)
  | [] => pure []
  | x :: xs => do
      let y ← g x
      let ys ← mapMP g xs
      pure (y :: ys)

/-- `impl Downcast<List<T>> for Value` where `Value: Downcast<T>`:
`into_list` then downcast each element into a fresh `List`. -/
def Value.downcastListWith {α : Type} (g : Value → PResult α) (v : Value) :
    PResult (ListV α) := do
  let l ← v.into_list
  let xs ← mapMP g l.elems
  pure ⟨xs⟩

/-- The entry closure `|(k, v)| Ok((k.downcast()?, v.downcast()?))` of the
`Map` downcast. -/
def downcastPair {α β : Type} (gk : Value → PResult α) (gv : Value → PResult β)
    (kv : Value × Value) : PResult (α × β) := do
  let k ← gk kv.1
  let w ← gv kv.2
  pure (k, w)

/-- `impl Downcast<Map<K, V>> for Value` where
`Value: Downcast<K> + Downcast<V>`: `into_map` then downcast each entry. -/
def Value.downcastMapWith {α β : Type} (gk : Value → PResult α)
    (gv : Value → PResult β) (v : Value) : PResult (MapV α β) := do
  let m ← v.into_map
  let es ← mapMP (downcastPair gk gv) m.entries
  pure ⟨es⟩

/-- Round-trip of `mapMP` over converted elements. -/
theorem mapMP_map_roundTrip {α β : Type} (f : α → β) (g : β → PResult α)
    (hfg : ∀ a, g (f a) = PResult.ok a) (xs : List α) :
    mapMP g (xs.map f) = PResult.ok xs := by
  induction xs with
  | nil => rfl
  | cons x xs ih => simp [mapMP, hfg, ih]

/-- C6: downcast round-trip.  Every primitive conversion into `Value`
followed by the matching downcast is the identity, and the generic
`List<T>` and `Map<K, V>` conversions round-trip whenever their element,
key and value conversions do. -/
theorem claim_C6 :
    (∀ v : Bool, (Value.fromBool v).into_bool = PResult.ok v)
    ∧ (∀ v : Nat, (Value.fromU8 v).into_u8 = PResult.ok v)
    ∧ (∀ v : Int, (Value.fromI8 v).into_i8 = PResult.ok v)
    ∧ (∀ v : Nat, (Value.fromU16 v).into_u16 = PResult.ok v)
    ∧ (∀ v : Int, (Value.fromI16 v).into_i16 = PResult.ok v)
    ∧ (∀ v : Nat, (Value.fromU32 v).into_u32 = PResult.ok v)
    ∧ (∀ v : Int, (Value.fromI32 v).into_i32 = PResult.ok v)
    ∧ (∀ v : Nat, (Value.fromU64 v).into_u64 = PResult.ok v)
    ∧ (∀ v : Int, (Value.fromI64 v).into_i64 = PResult.ok v)
    ∧ (∀ v : Float32, (Value.fromF32 v).into_f32 = PResult.ok v)
    ∧ (∀ v : Float64, (Value.fromF64 v).into_f64 = PResult.ok v)
    ∧ (∀ v : Date, (Value.fromDate v).into_date = PResult.ok v)
    ∧ (∀ v : Time, (Value.fromTime v).into_time = PResult.ok v)
    ∧ (∀ v : Timestamp, (Value.fromTimestamp v).into_timestamp = PResult.ok v)
    ∧ (∀ v : Decimal, (Value.fromDecimal v).into_decimal = PResult.ok v)
    ∧ (∀ v : List Nat, (Value.fromByteArray v).into_byte_array = PResult.ok v)
    ∧ (∀ v : Bson, (Value.fromBson v).into_bson = PResult.ok v)
    ∧ (∀ v : String, (Value.fromString v).into_string = PResult.ok v)
    ∧ (∀ v : Json, (Value.fromJson v).into_json = PResult.ok v)
    ∧ (∀ v : Enum, (Value.fromEnum v).into_enum = PResult.ok v)
    ∧ (∀ (α : Type) (f : α → Value) (g : Value → PResult α),
        (∀ a, g (f a) = PResult.ok a) →
        ∀ l : ListV α,
          Value.downcastListWith g (Value.fromListWith f l) = PResult.ok l)
    ∧ (∀ (α β : Type) (fk : α → Value) (fv : β → Value)
        (gk : Value → PResult α) (gv : Value → PResult β),
        (∀ a, gk (fk a) = PResult.ok a) → (∀ b, gv (fv b) = PResult.ok b) →
        ∀ m : MapV α β,
          Value.downcastMapWith gk gv (Value.fromMapWith fk fv m) =
            PResult.ok m) := by
  refine ⟨fun _ => rfl, fun _ => rfl, fun _ => rfl, fun _ => rfl, fun _ => rfl,
    fun _ => rfl, fun _ => rfl, fun _ => rfl, fun _ => rfl, fun _ => rfl,
    fun _ => rfl, fun _ => rfl, fun _ => rfl, fun _ => rfl, fun _ => rfl,
    fun _ => rfl, fun _ => rfl, fun _ => rfl, fun _ => rfl, fun _ => rfl,
    ?_, ?_⟩
  · intro α f g hfg l
    simp [Value.downcastListWith, Value.fromListWith, Value.into_list,
      mapMP_map_roundTrip f g hfg]
  · intro α β fk fv gk gv hk hv m
    have h2 := mapMP_map_roundTrip (fun kv : α × β => (fk kv.1, fv kv.2))
      (downcastPair gk gv)
      (by intro kv; simp [downcastPair, hk, hv]) m.entries
    simp [Value.downcastMapWith, Value.fromMapWith, Value.into_map, h2]

/-- Witness for C6: the `List` round-trip applied at `List<i32>` `[1, 2]`
through the `i32` conversions. -/
theorem claim_C6_witness :
    Value.downcastListWith Value.into_i32
        (Value.fromListWith Value.fromI32 ⟨[1, 2]⟩) =
      PResult.ok ⟨[1, 2]⟩ :=
  (claim_C6).2.2.2.2.2.2.2.2.2.2.2.2.2.2.2.2.2.2.2.2.1 Int Value.fromI32
    Value.into_i32 (fun _ => rfl) ⟨[1, 2]⟩

/-!
`impl Hash for Value` (`value.rs` lines 107–204).  The bytes fed to the
hasher are modelled as a token stream (`List Int`): each variant first
hashes its kind tag byte (0–23 in declaration order) and then its payload,
except `F32`, `F64`, `Decimal`, `Map` and `Group`, which hash only the tag.
Payload encodings stand for the `Hash::hash` byte streams of the payload
types (a `Vec`/`String` hashes its length then its contents; an
`Option<ValueRequired>` hashes its discriminant then the inner value, with
`ValueRequired`'s hash modelled by the value's own stream since the types
module is not among the provided sources). -/

/-- The kind tag byte each variant feeds to the hasher first. -/
def Value.tag : Value → Nat
  | .bool _ => 0
  | .u8 _ => 1
  | .i8 _ => 2
  | .u16 _ => 3
  | .i16 _ => 4
  | .u32 _ => 5
  | .i32 _ => 6
  | .u64 _ => 7
  | .i64 _ => 8
  | .f32 _ => 9
  | .f64 _ => 10
  | .date _ => 11
  | .time _ => 12
  | .timestamp _ => 13
  | .decimal _ => 14
  | .byteArray _ => 15
  | .bson _ => 16
  | .string _ => 17
  | .json _ => 18
  | .enum _ => 19
  | .list _ => 20
  | .map _ => 21
  | .group _ _ => 22
  | .option _ => 23

/-- The token stream a `String` payload feeds to the hasher. -/
def stringStream (s : String) : List Int :=
  (s.length : Int) :: s.toList.map (fun c => (c.toNat : Int))

mutual

/-- The token stream `Value::hash` feeds to the hasher. -/
def Value.hashStream : Value → List Int
  | .bool v => [0, if v then 1 else 0]
  | .u8 v => [1, (v : Int)]
  | .i8 v => [2, v]
  | .u16 v => [3, (v : Int)]
  | .i16 v => [4, v]
  | .u32 v => [5, (v : Int)]
  | .i32 v => [6, v]
  | .u64 v => [7, (v : Int)]
  | .i64 v => [8, v]
  | .f32 _ => [9]
  | .f64 _ => [10]
  | .date v => [11, v.days]
  | .time v => [12, (v.micros : Int)]
  | .timestamp v => [13, v.instant]
  | .decimal _ => [14]
  | .byteArray v => 15 :: (v.length : Int) :: v.map (fun b => (b : Int))
  | .bson v => 16 :: (v.bytes.length : Int) :: v.bytes.map (fun b => (b : Int))
  | .string v => 17 :: stringStream v
  | .json v => 18 :: stringStream v.str
  | .enum v => 19 :: stringStream v.str
  | .list vs => 20 :: (vs.length : Int) :: hashStreamList vs
  | .map _ => [21]
  | .group _ _ => [22]
  | .option Option.none => [23, 0]
  | .option (some v) => 23 :: 1 :: Value.hashStream v

/-- Element-wise hashing of a `Vec<Value>` payload. -/
def hashStreamList : List Value → List Int
  | [] => []
  | v :: vs => Value.hashStream v ++ hashStreamList vs

end

/-- Every hash stream begins with the variant's kind tag. -/
theorem hashStream_head (v : Value) :
    v.hashStream.head? = some ((v.tag : Int)) := by
  cases v with
  | option o => cases o <;> simp [Value.hashStream, Value.tag]
  | _ => simp [Value.hashStream, Value.tag]

/-- C7: hashing.  Each variant feeds its distinct kind tag byte first
(tag equations, one per variant), so two values of different variants feed
different streams to the hasher; the `F32`, `F64`, `Decimal`, `Map` and
`Group` variants feed only their tag and ignore the payload, so any two
values of the same such variant hash identically. -/
theorem claim_C7 :
    ((∀ x, (Value.bool x).tag = 0) ∧ (∀ x, (Value.u8 x).tag = 1)
      ∧ (∀ x, (Value.i8 x).tag = 2) ∧ (∀ x, (Value.u16 x).tag = 3)
      ∧ (∀ x, (Value.i16 x).tag = 4) ∧ (∀ x, (Value.u32 x).tag = 5)
      ∧ (∀ x, (Value.i32 x).tag = 6) ∧ (∀ x, (Value.u64 x).tag = 7)
      ∧ (∀ x, (Value.i64 x).tag = 8) ∧ (∀ x, (Value.f32 x).tag = 9)
      ∧ (∀ x, (Value.f64 x).tag = 10) ∧ (∀ x, (Value.date x).tag = 11)
      ∧ (∀ x, (Value.time x).tag = 12) ∧ (∀ x, (Value.timestamp x).tag = 13)
      ∧ (∀ x, (Value.decimal x).tag = 14) ∧ (∀ x, (Value.byteArray x).tag = 15)
      ∧ (∀ x, (Value.bson x).tag = 16) ∧ (∀ x, (Value.string x).tag = 17)
      ∧ (∀ x, (Value.json x).tag = 18) ∧ (∀ x, (Value.enum x).tag = 19)
      ∧ (∀ x, (Value.list x).tag = 20) ∧ (∀ x, (Value.map x).tag = 21)
      ∧ (∀ x y, (Value.group x y).tag = 22) ∧ (∀ x, (Value.option x).tag = 23))
    ∧ (∀ v w : Value, v.tag ≠ w.tag → v.hashStream ≠ w.hashStream)
    ∧ (∀ x y : Float32, (Value.f32 x).hashStream = [9]
        ∧ (Value.f32 y).hashStream = (Value.f32 x).hashStream)
    ∧ (∀ x y : Float64, (Value.f64 x).hashStream = [10]
        ∧ (Value.f64 y).hashStream = (Value.f64 x).hashStream)
    ∧ (∀ x y : Decimal, (Value.decimal x).hashStream = [14]
        ∧ (Value.decimal y).hashStream = (Value.decimal x).hashStream)
    ∧ (∀ x y : List (Value × Value), (Value.map x).hashStream = [21]
        ∧ (Value.map y).hashStream = (Value.map x).hashStream)
    ∧ (∀ (x y : List Value) (nx ny : List String),
        (Value.group x nx).hashStream = [22]
        ∧ (Value.group y ny).hashStream = (Value.group x nx).hashStream) := by
  refine ⟨⟨fun _ => rfl, fun _ => rfl, fun _ => rfl, fun _ => rfl, fun _ => rfl,
    fun _ => rfl, fun _ => rfl, fun _ => rfl, fun _ => rfl, fun _ => rfl,
    fun _ => rfl, fun _ => rfl, fun _ => rfl, fun _ => rfl, fun _ => rfl,
    fun _ => rfl, fun _ => rfl, fun _ => rfl, fun _ => rfl, fun _ => rfl,
    fun _ => rfl, fun _ => rfl, fun _ _ => rfl, fun _ => rfl⟩, ?_, ?_, ?_, ?_,
    ?_, ?_⟩
  · intro v w htag hstream
    apply htag
    have h := congrArg List.head? hstream
    rw [hashStream_head, hashStream_head] at h
    have h2 : (v.tag : Int) = (w.tag : Int) := by
      simpa using h
    exact_mod_cast h2
  · intro x y
    exact ⟨by simp [Value.hashStream], by simp [Value.hashStream]⟩
  · intro x y
    exact ⟨by simp [Value.hashStream], by simp [Value.hashStream]⟩
  · intro x y
    exact ⟨by simp [Value.hashStream], by simp [Value.hashStream]⟩
  · intro x y
    exact ⟨by simp [Value.hashStream], by simp [Value.hashStream]⟩
  · intro x y nx ny
    exact ⟨by simp [Value.hashStream], by simp [Value.hashStream]⟩

/-- Witness for C7: a `Bool` and a `U8` value (tags 0 and 1) feed different
hash streams. -/
theorem claim_C7_witness :
    (Value.bool true).hashStream ≠ (Value.u8 0).hashStream :=
  (claim_C7).2.1 (Value.bool true) (Value.u8 0) (by decide)

/-!
`impl PartialEq<T> for Value` for every concrete shape `T` (`value.rs`
lines 1326–1487): extract-and-compare, with extraction failure yielding
`false`.  The floating-point payload comparison is IEEE-754 equality on
the bit patterns (NaN compares unequal to everything, positive and
negative zero compare equal); the composite comparisons are parametrised
by the element comparisons the source obtains from its trait bounds. -/

/-- `Result::map`. -/
def PResult.mapF {α β : Type} (f : α → β) : PResult α → PResult β
  | .ok a => .ok (f a)
  | .err m => .err m
  | .panicked m => .panicked m

/-- `Result::unwrap_or` (the extractors never panic, so the panic case is
unreachable here). -/
def PResult.unwrapOr {α : Type} (r : PResult α) (d : α) : α :=
  match r with
  | .ok a => a
  | .err _ => d
  | .panicked _ => d

/-- NaN test on the raw bits: exponent all ones with nonzero mantissa. -/
def Float32.isNaN (x : Float32) : Bool :=
  decide ((x.bits / 2 ^ 23) % 2 ^ 8 = 255) && decide (¬ x.bits % 2 ^ 23 = 0)

/-- Zero test on the raw bits, ignoring the sign bit. -/
def Float32.isZero (x : Float32) : Bool := decide (x.bits % 2 ^ 31 = 0)

/-- IEEE-754 equality of `f32` payloads on their bit patterns. -/
def Float32.ieeeEq (x y : Float32) : Bool :=
  !x.isNaN && !y.isNaN && (x.bits == y.bits || (x.isZero && y.isZero))

/-- NaN test on the raw bits: exponent all ones with nonzero mantissa. -/
def Float64.isNaN (x : Float64) : Bool :=
  decide ((x.bits / 2 ^ 52) % 2 ^ 11 = 2047) && decide (¬ x.bits % 2 ^ 52 = 0)

/-- Zero test on the raw bits, ignoring the sign bit. -/
def Float64.isZero (x : Float64) : Bool := decide (x.bits % 2 ^ 63 = 0)

/-- IEEE-754 equality of `f64` payloads on their bit patterns. -/
def Float64.ieeeEq (x y : Float64) : Bool :=
  !x.isNaN && !y.isNaN && (x.bits == y.bits || (x.isZero && y.isZero))

mutual

/-- The derived `PartialEq` of `Value` against itself (`#[derive(PartialEq)]`
on `value.rs` line 51): same variant, equal payloads.  Map payloads compare
as the `HashMap` equality (equal size and every entry of the left matched by
key in the right); since a `HashMap`'s entries have distinct keys, the
entry-wise search below coincides with `get`-based lookup. -/
def Value.beq : Value → Value → Bool
  | .bool a, .bool b => a == b
  | .u8 a, .u8 b => a == b
  | .i8 a, .i8 b => a == b
  | .u16 a, .u16 b => a == b
  | .i16 a, .i16 b => a == b
  | .u32 a, .u32 b => a == b
  | .i32 a, .i32 b => a == b
  | .u64 a, .u64 b => a == b
  | .i64 a, .i64 b => a == b
  | .f32 a, .f32 b => Float32.ieeeEq a b
  | .f64 a, .f64 b => Float64.ieeeEq a b
  | .date a, .date b => a == b
  | .time a, .time b => a == b
  | .timestamp a, .timestamp b => a == b
  | .decimal a, .decimal b => a == b
  | .byteArray a, .byteArray b => a == b
  | .bson a, .bson b => a == b
  | .string a, .string b => a == b
  | .json a, .json b => a == b
  | .enum a, .enum b => a == b
  | .list xs, .list ys => valueListBeq xs ys
  | .map xs, .map ys => xs.length == ys.length && valueMapIncl xs ys
  | .group fa na, .group fb nb => valueListBeq fa fb && na == nb
  | .option Option.none, .option Option.none => true
  | .option (some a), .option (some b) => Value.beq a b
  | _, _ => false

/-- `Vec<Value>` equality: element-wise. -/
def valueListBeq : List Value → List Value → Bool
  | [], [] => true
  | x :: xs, y :: ys => Value.beq x y && valueListBeq xs ys
  | _, _ => false

/-- Every entry of the first map is matched by key in the second. -/
def valueMapIncl : List (Value × Value) → List (Value × Value) → Bool
  | [], _ => true
  | kv :: rest, ys => valueMapHas kv ys && valueMapIncl rest ys

/-- Key-matched membership of one entry in an entry list. -/
def valueMapHas : Value × Value → List (Value × Value) → Bool
  | _, [] => false
  | (k, v), (k2, v2) :: rest =>
      (Value.beq k k2 && Value.beq v v2) || valueMapHas (k, v) rest

end

/-- `impl PartialEq<bool> for Value`: extract and compare. -/
def Value.eq_bool (v : Value) (t : Bool) : Bool :=
  ((v.into_bool).mapF (fun x => x == t)).unwrapOr false

/-- `impl PartialEq<u8> for Value`: extract and compare. -/
def Value.eq_u8 (v : Value) (t : Nat) : Bool :=
  ((v.into_u8).mapF (fun x => x == t)).unwrapOr false

/-- `impl PartialEq<i8> for Value`: extract and compare. -/
def Value.eq_i8 (v : Value) (t : Int) : Bool :=
  ((v.into_i8).mapF (fun x => x == t)).unwrapOr false

/-- `impl PartialEq<u16> for Value`: extract and compare. -/
def Value.eq_u16 (v : Value) (t : Nat) : Bool :=
  ((v.into_u16).mapF (fun x => x == t)).unwrapOr false

/-- `impl PartialEq<i16> for Value`: extract and compare. -/
def Value.eq_i16 (v : Value) (t : Int) : Bool :=
  ((v.into_i16).mapF (fun x => x == t)).unwrapOr false

/-- `impl PartialEq<u32> for Value`: extract and compare. -/
def Value.eq_u32 (v : Value) (t : Nat) : Bool :=
  ((v.into_u32).mapF (fun x => x == t)).unwrapOr false

/-- `impl PartialEq<i32> for Value`: extract and compare. -/
def Value.eq_i32 (v : Value) (t : Int) : Bool :=
  ((v.into_i32).mapF (fun x => x == t)).unwrapOr false

/-- `impl PartialEq<u64> for Value`: extract and compare. -/
def Value.eq_u64 (v : Value) (t : Nat) : Bool :=
  ((v.into_u64).mapF (fun x => x == t)).unwrapOr false

/-- `impl PartialEq<i64> for Value`: extract and compare. -/
def Value.eq_i64 (v : Value) (t : Int) : Bool :=
  ((v.into_i64).mapF (fun x => x == t)).unwrapOr false

/-- `impl PartialEq<f32> for Value`: extract and compare. -/
def Value.eq_f32 (v : Value) (t : Float32) : Bool :=
  ((v.into_f32).mapF (fun x => Float32.ieeeEq x t)).unwrapOr false

/-- `impl PartialEq<f64> for Value`: extract and compare. -/
def Value.eq_f64 (v : Value) (t : Float64) : Bool :=
  ((v.into_f64).mapF (fun x => Float64.ieeeEq x t)).unwrapOr false

/-- `impl PartialEq<Date> for Value`: extract and compare. -/
def Value.eq_date (v : Value) (t : Date) : Bool :=
  ((v.into_date).mapF (fun x => x == t)).unwrapOr false

/-- `impl PartialEq<Time> for Value`: extract and compare. -/
def Value.eq_time (v : Value) (t : Time) : Bool :=
  ((v.into_time).mapF (fun x => x == t)).unwrapOr false

/-- `impl PartialEq<Timestamp> for Value`: extract and compare. -/
def Value.eq_timestamp (v : Value) (t : Timestamp) : Bool :=
  ((v.into_timestamp).mapF (fun x => x == t)).unwrapOr false

/-- `impl PartialEq<Decimal> for Value`: extract and compare. -/
def Value.eq_decimal (v : Value) (t : Decimal) : Bool :=
  ((v.into_decimal).mapF (fun x => x == t)).unwrapOr false

/-- `impl PartialEq<Vec<u8>> for Value`: extract and compare. -/
def Value.eq_byte_array (v : Value) (t : List Nat) : Bool :=
  ((v.into_byte_array).mapF (fun x => x == t)).unwrapOr false

/-- `impl PartialEq<Bson> for Value`: extract and compare. -/
def Value.eq_bson (v : Value) (t : Bson) : Bool :=
  ((v.into_bson).mapF (fun x => x == t)).unwrapOr false

/-- `impl PartialEq<String> for Value`: extract and compare. -/
def Value.eq_string (v : Value) (t : String) : Bool :=
  ((v.into_string).mapF (fun x => x == t)).unwrapOr false

/-- `impl PartialEq<Json> for Value`: extract and compare. -/
def Value.eq_json (v : Value) (t : Json) : Bool :=
  ((v.into_json).mapF (fun x => x == t)).unwrapOr false

/-- `impl PartialEq<Enum> for Value`: extract and compare. -/
def Value.eq_enum (v : Value) (t : Enum) : Bool :=
  ((v.into_enum).mapF (fun x => x == t)).unwrapOr false

/-- `impl PartialEq<List<U>> for List<T>`: element-wise with the
`Value: PartialEq<U>` comparison. -/
def listEqWith {α : Type} (cmp : Value → α → Bool) :
    List Value → List α → Bool
  | [], [] => true
  | x :: xs, y :: ys => cmp x y && listEqWith cmp xs ys
  | _, _ => false

/-- `impl PartialEq<List<T>> for Value`: extract and compare. -/
def Value.eq_list {α : Type} (cmp : Value → α → Bool) (v : Value)
    (t : ListV α) : Bool :=
  ((v.into_list).mapF (fun l => listEqWith cmp l.elems t.elems)).unwrapOr false

/-- `HashMap::get` on the converted key list; the source collects the
converted entries into a `HashMap`, where a later duplicate key overwrites
an earlier one, hence the reversed first-match search. -/
def mapGetConverted {β : Type} (other : List (Value × β)) (k : Value) :
    Option β :=
  ((other.reverse).find? (fun kv => Value.beq kv.1 k)).map (fun kv => kv.2)

/-- The body of `impl PartialEq<Map<K, V>> for Value` (`value.rs` lines
1447–1467): sizes must agree, the keys of `other` are converted into
`Value`s, and every entry of the extracted map must find its key there with
an equal value. -/
def mapCompareWith {α β : Type} (intoV : α → Value) (cmpV : Value → β → Bool)
    (es : List (Value × Value)) (t : MapV α β) : Bool :=
  if es.length == t.entries.length then
    let other := t.entries.map (fun kv => (intoV kv.1, kv.2))
    es.all (fun kv =>
      match mapGetConverted other kv.1 with
      | some w => cmpV kv.2 w
      | Option.none => false)
  else false

/-- `impl PartialEq<Map<K, V>> for Value`: extract and compare. -/
def Value.eq_map {α β : Type} (intoV : α → Value) (cmpV : Value → β → Bool)
    (v : Value) (t : MapV α β) : Bool :=
  ((v.into_map).mapF (fun m => mapCompareWith intoV cmpV m.entries t)).unwrapOr
    false

/-- The derived `PartialEq` of `Group`: equal field vectors (by `Value`
equality) and equal name maps. -/
def groupBeq (g1 g2 : Group) : Bool :=
  valueListBeq g1.fields g2.fields && g1.names == g2.names

/-- `impl PartialEq<Group> for Value`: extract and compare. -/
def Value.eq_group (v : Value) (t : Group) : Bool :=
  ((v.into_group).mapF (fun g => groupBeq g t)).unwrapOr false

/-- The `match` body of `impl PartialEq<Option<T>> for Value`: both present
with equal contents, or both absent. -/
def optionCompareWith {α : Type} (cmp : Value → α → Bool) (o : Option Value)
    (t : Option α) : Bool :=
  match o, t with
  | some a, some b => cmp a b
  | Option.none, Option.none => true
  | _, _ => false

/-- `impl PartialEq<Option<T>> for Value`: extract and compare. -/
def Value.eq_option {α : Type} (cmp : Value → α → Bool) (v : Value)
    (t : Option α) : Bool :=
  ((v.into_option).mapF (fun o => optionCompareWith cmp o t)).unwrapOr false


set_option maxHeartbeats 2000000 in
/-- C8: equality of a `Value` against every concrete typed shape is total
extract-and-compare: when the value is not the matching variant the
comparison is `false` (and, being a total function, never a panic); when it
is, the comparison is exactly the payload comparison. -/
theorem claim_C8 :
    (∀ (v : Value) (t : Bool), v.is_bool = false → Value.eq_bool v t = false)
    ∧ (∀ (x : Bool) (t : Bool), Value.eq_bool (Value.bool x) t = (x == t))
    ∧ (∀ (v : Value) (t : Nat), v.is_u8 = false → Value.eq_u8 v t = false)
    ∧ (∀ (x : Nat) (t : Nat), Value.eq_u8 (Value.u8 x) t = (x == t))
    ∧ (∀ (v : Value) (t : Int), v.is_i8 = false → Value.eq_i8 v t = false)
    ∧ (∀ (x : Int) (t : Int), Value.eq_i8 (Value.i8 x) t = (x == t))
    ∧ (∀ (v : Value) (t : Nat), v.is_u16 = false → Value.eq_u16 v t = false)
    ∧ (∀ (x : Nat) (t : Nat), Value.eq_u16 (Value.u16 x) t = (x == t))
    ∧ (∀ (v : Value) (t : Int), v.is_i16 = false → Value.eq_i16 v t = false)
    ∧ (∀ (x : Int) (t : Int), Value.eq_i16 (Value.i16 x) t = (x == t))
    ∧ (∀ (v : Value) (t : Nat), v.is_u32 = false → Value.eq_u32 v t = false)
    ∧ (∀ (x : Nat) (t : Nat), Value.eq_u32 (Value.u32 x) t = (x == t))
    ∧ (∀ (v : Value) (t : Int), v.is_i32 = false → Value.eq_i32 v t = false)
    ∧ (∀ (x : Int) (t : Int), Value.eq_i32 (Value.i32 x) t = (x == t))
    ∧ (∀ (v : Value) (t : Nat), v.is_u64 = false → Value.eq_u64 v t = false)
    ∧ (∀ (x : Nat) (t : Nat), Value.eq_u64 (Value.u64 x) t = (x == t))
    ∧ (∀ (v : Value) (t : Int), v.is_i64 = false → Value.eq_i64 v t = false)
    ∧ (∀ (x : Int) (t : Int), Value.eq_i64 (Value.i64 x) t = (x == t))
    ∧ (∀ (v : Value) (t : Float32), v.is_f32 = false → Value.eq_f32 v t = false)
    ∧ (∀ (x : Float32) (t : Float32), Value.eq_f32 (Value.f32 x) t = Float32.ieeeEq x t)
    ∧ (∀ (v : Value) (t : Float64), v.is_f64 = false → Value.eq_f64 v t = false)
    ∧ (∀ (x : Float64) (t : Float64), Value.eq_f64 (Value.f64 x) t = Float64.ieeeEq x t)
    ∧ (∀ (v : Value) (t : Date), v.is_date = false → Value.eq_date v t = false)
    ∧ (∀ (x : Date) (t : Date), Value.eq_date (Value.date x) t = (x == t))
    ∧ (∀ (v : Value) (t : Time), v.is_time = false → Value.eq_time v t = false)
    ∧ (∀ (x : Time) (t : Time), Value.eq_time (Value.time x) t = (x == t))
    ∧ (∀ (v : Value) (t : Timestamp), v.is_timestamp = false → Value.eq_timestamp v t = false)
    ∧ (∀ (x : Timestamp) (t : Timestamp), Value.eq_timestamp (Value.timestamp x) t = (x == t))
    ∧ (∀ (v : Value) (t : Decimal), v.is_decimal = false → Value.eq_decimal v t = false)
    ∧ (∀ (x : Decimal) (t : Decimal), Value.eq_decimal (Value.decimal x) t = (x == t))
    ∧ (∀ (v : Value) (t : List Nat), v.is_byte_array = false → Value.eq_byte_array v t = false)
    ∧ (∀ (x : List Nat) (t : List Nat), Value.eq_byte_array (Value.byteArray x) t = (x == t))
    ∧ (∀ (v : Value) (t : Bson), v.is_bson = false → Value.eq_bson v t = false)
    ∧ (∀ (x : Bson) (t : Bson), Value.eq_bson (Value.bson x) t = (x == t))
    ∧ (∀ (v : Value) (t : String), v.is_string = false → Value.eq_string v t = false)
    ∧ (∀ (x : String) (t : String), Value.eq_string (Value.string x) t = (x == t))
    ∧ (∀ (v : Value) (t : Json), v.is_json = false → Value.eq_json v t = false)
    ∧ (∀ (x : Json) (t : Json), Value.eq_json (Value.json x) t = (x == t))
    ∧ (∀ (v : Value) (t : Enum), v.is_enum = false → Value.eq_enum v t = false)
    ∧ (∀ (x : Enum) (t : Enum), Value.eq_enum (Value.enum x) t = (x == t))
    ∧ (∀ (α : Type) (cmp : Value → α → Bool) (v : Value) (t : ListV α),
        v.is_list = false → Value.eq_list cmp v t = false)
    ∧ (∀ (α : Type) (cmp : Value → α → Bool) (es : List Value) (t : ListV α),
        Value.eq_list cmp (Value.list es) t = listEqWith cmp es t.elems)
    ∧ (∀ (α β : Type) (intoV : α → Value) (cmpV : Value → β → Bool)
        (v : Value) (t : MapV α β),
        v.is_map = false → Value.eq_map intoV cmpV v t = false)
    ∧ (∀ (α β : Type) (intoV : α → Value) (cmpV : Value → β → Bool)
        (es : List (Value × Value)) (t : MapV α β),
        Value.eq_map intoV cmpV (Value.map es) t = mapCompareWith intoV cmpV es t)
    ∧ (∀ (v : Value) (t : Group),
        v.is_group = false → Value.eq_group v t = false)
    ∧ (∀ (fs : List Value) (ns : List String) (t : Group),
        Value.eq_group (Value.group fs ns) t = groupBeq ⟨fs, ns⟩ t)
    ∧ (∀ (α : Type) (cmp : Value → α → Bool) (v : Value) (t : Option α),
        v.is_option = false → Value.eq_option cmp v t = false)
    ∧ (∀ (α : Type) (cmp : Value → α → Bool) (o : Option Value) (t : Option α),
        Value.eq_option cmp (Value.option o) t = optionCompareWith cmp o t) := by
  refine ⟨?_, ?_, ?_, ?_, ?_, ?_, ?_, ?_, ?_, ?_, ?_, ?_, ?_, ?_, ?_, ?_, ?_, ?_, ?_, ?_, ?_, ?_, ?_, ?_, ?_, ?_, ?_, ?_, ?_, ?_, ?_, ?_, ?_, ?_, ?_, ?_, ?_, ?_, ?_, ?_, ?_, ?_, ?_, ?_, ?_, ?_, ?_, ?_⟩ <;>
    first
      | (intro x t; rfl)
      | (intro α cmp es t; rfl)
      | (intro α β intoV cmpV es t; rfl)
      | (intro fs ns t; rfl)
      | (intro α cmp o t; rfl)
      | (intro v t h; cases v <;>
          simp_all [Value.is_bool,
           Value.eq_bool,
           Value.into_bool,
           Value.is_u8,
           Value.eq_u8,
           Value.into_u8,
           Value.is_i8,
           Value.eq_i8,
           Value.into_i8,
           Value.is_u16,
           Value.eq_u16,
           Value.into_u16,
           Value.is_i16,
           Value.eq_i16,
           Value.into_i16,
           Value.is_u32,
           Value.eq_u32,
           Value.into_u32,
           Value.is_i32,
           Value.eq_i32,
           Value.into_i32,
           Value.is_u64,
           Value.eq_u64,
           Value.into_u64,
           Value.is_i64,
           Value.eq_i64,
           Value.into_i64,
           Value.is_f32,
           Value.eq_f32,
           Value.into_f32,
           Value.is_f64,
           Value.eq_f64,
           Value.into_f64,
           Value.is_date,
           Value.eq_date,
           Value.into_date,
           Value.is_time,
           Value.eq_time,
           Value.into_time,
           Value.is_timestamp,
           Value.eq_timestamp,
           Value.into_timestamp,
           Value.is_decimal,
           Value.eq_decimal,
           Value.into_decimal,
           Value.is_byte_array,
           Value.eq_byte_array,
           Value.into_byte_array,
           Value.is_bson,
           Value.eq_bson,
           Value.into_bson,
           Value.is_string,
           Value.eq_string,
           Value.into_string,
           Value.is_json,
           Value.eq_json,
           Value.into_json,
           Value.is_enum,
           Value.eq_enum,
           Value.into_enum,
           Value.is_list,
           Value.eq_list,
           Value.into_list,
           Value.is_map,
           Value.eq_map,
           Value.into_map,
           Value.is_group,
           Value.eq_group,
           Value.into_group,
           Value.is_option,
           Value.eq_option,
           Value.into_option,
           PResult.mapF,
           PResult.unwrapOr])
      | (intro α cmp v t h; cases v <;>
          simp_all [Value.is_bool,
           Value.eq_bool,
           Value.into_bool,
           Value.is_u8,
           Value.eq_u8,
           Value.into_u8,
           Value.is_i8,
           Value.eq_i8,
           Value.into_i8,
           Value.is_u16,
           Value.eq_u16,
           Value.into_u16,
           Value.is_i16,
           Value.eq_i16,
           Value.into_i16,
           Value.is_u32,
           Value.eq_u32,
           Value.into_u32,
           Value.is_i32,
           Value.eq_i32,
           Value.into_i32,
           Value.is_u64,
           Value.eq_u64,
           Value.into_u64,
           Value.is_i64,
           Value.eq_i64,
           Value.into_i64,
           Value.is_f32,
           Value.eq_f32,
           Value.into_f32,
           Value.is_f64,
           Value.eq_f64,
           Value.into_f64,
           Value.is_date,
           Value.eq_date,
           Value.into_date,
           Value.is_time,
           Value.eq_time,
           Value.into_time,
           Value.is_timestamp,
           Value.eq_timestamp,
           Value.into_timestamp,
           Value.is_decimal,
           Value.eq_decimal,
           Value.into_decimal,
           Value.is_byte_array,
           Value.eq_byte_array,
           Value.into_byte_array,
           Value.is_bson,
           Value.eq_bson,
           Value.into_bson,
           Value.is_string,
           Value.eq_string,
           Value.into_string,
           Value.is_json,
           Value.eq_json,
           Value.into_json,
           Value.is_enum,
           Value.eq_enum,
           Value.into_enum,
           Value.is_list,
           Value.eq_list,
           Value.into_list,
           Value.is_map,
           Value.eq_map,
           Value.into_map,
           Value.is_group,
           Value.eq_group,
           Value.into_group,
           Value.is_option,
           Value.eq_option,
           Value.into_option,
           PResult.mapF,
           PResult.unwrapOr])
      | (intro α β intoV cmpV v t h; cases v <;>
          simp_all [Value.is_bool,
           Value.eq_bool,
           Value.into_bool,
           Value.is_u8,
           Value.eq_u8,
           Value.into_u8,
           Value.is_i8,
           Value.eq_i8,
           Value.into_i8,
           Value.is_u16,
           Value.eq_u16,
           Value.into_u16,
           Value.is_i16,
           Value.eq_i16,
           Value.into_i16,
           Value.is_u32,
           Value.eq_u32,
           Value.into_u32,
           Value.is_i32,
           Value.eq_i32,
           Value.into_i32,
           Value.is_u64,
           Value.eq_u64,
           Value.into_u64,
           Value.is_i64,
           Value.eq_i64,
           Value.into_i64,
           Value.is_f32,
           Value.eq_f32,
           Value.into_f32,
           Value.is_f64,
           Value.eq_f64,
           Value.into_f64,
           Value.is_date,
           Value.eq_date,
           Value.into_date,
           Value.is_time,
           Value.eq_time,
           Value.into_time,
           Value.is_timestamp,
           Value.eq_timestamp,
           Value.into_timestamp,
           Value.is_decimal,
           Value.eq_decimal,
           Value.into_decimal,
           Value.is_byte_array,
           Value.eq_byte_array,
           Value.into_byte_array,
           Value.is_bson,
           Value.eq_bson,
           Value.into_bson,
           Value.is_string,
           Value.eq_string,
           Value.into_string,
           Value.is_json,
           Value.eq_json,
           Value.into_json,
           Value.is_enum,
           Value.eq_enum,
           Value.into_enum,
           Value.is_list,
           Value.eq_list,
           Value.into_list,
           Value.is_map,
           Value.eq_map,
           Value.into_map,
           Value.is_group,
           Value.eq_group,
           Value.into_group,
           Value.is_option,
           Value.eq_option,
           Value.into_option,
           PResult.mapF,
           PResult.unwrapOr])

/-- Witness for C8: comparing the string value `Value::String("a")` against
the boolean `true` extracts no boolean and yields `false`. -/
theorem claim_C8_witness :
    Value.eq_bool (Value.string "a") true = false :=
  (claim_C8).1 (Value.string "a") true rfl


/-!
The schema pretty-printer (`display.rs`): the `PadAdapter` write adapter
(lines 50–93) and `DisplaySchemaGroup` (lines 99–165).  A field's own
rendering (produced by `Schema::fmt` in `schemas.rs`, not among the provided
sources) is an opaque input string here. -/

/-- Modelled from the spec: `Display` for `Repetition` (`basic.rs` is not
among the provided sources); the canonical lower-case forms of §6.2. -/
def Repetition.toText : Repetition → String
  | .required => "required"
  | .optional => "optional"
  | .repeated => "repeated"

/-- Modelled from the spec: `Display` for `LogicalType` (`basic.rs` is not
among the provided sources); the canonical upper-case annotations of
§6.2/S6. -/
def LogicalType.toText : LogicalType → String
  | .none => "NONE"
  | .utf8 => "UTF8"
  | .map => "MAP"
  | .mapKeyValue => "MAP_KEY_VALUE"
  | .list => "LIST"
  | .enum => "ENUM"
  | .decimal => "DECIMAL"
  | .date => "DATE"
  | .timeMillis => "TIME_MILLIS"
  | .timeMicros => "TIME_MICROS"
  | .timestampMillis => "TIMESTAMP_MILLIS"
  | .timestampMicros => "TIMESTAMP_MICROS"
  | .uint8 => "UINT_8"
  | .uint16 => "UINT_16"
  | .uint32 => "UINT_32"
  | .uint64 => "UINT_64"
  | .int8 => "INT_8"
  | .int16 => "INT_16"
  | .int32 => "INT_32"
  | .int64 => "INT_64"
  | .json => "JSON"
  | .bson => "BSON"
  | .interval => "INTERVAL"

/-- `PadAdapter::write_str` (`display.rs` lines 71–92) processed character
by character with the persistent `on_newline` flag: whenever the flag is set
and another character is to be written, four spaces are written first; the
flag is set after writing a newline.  A trailing newline therefore receives
no pad (the pad is emitted lazily at the next write). -/
def padChars : Bool → List Char → List Char
  | _, [] => []
  | true, c :: rest => ' ' :: ' ' :: ' ' :: ' ' :: c :: padChars (c == '\n') rest
  | false, c :: rest => c :: padChars (c == '\n') rest

/-- `DisplaySchemaGroup::new` (lines 106–131): the group header,
`<repetition> group <name>` or `message <name>` at the root, the logical
annotation in parentheses when present, then ` {`. -/
def groupHeader (r : Option Repetition) (name : Option String)
    (logical : Option LogicalType) : String :=
  (match r with
   | some rep => rep.toText ++ " group "
   | Option.none => "message ")
  ++ name.getD "<name>"
  ++ (match logical with
      | some l => " (" ++ l.toText ++ ")"
      | Option.none => "")
  ++ " \x7b"

/-- `DisplaySchemaGroup::field` (lines 134–154): `"\n"` followed by the
field's own rendering, written through a fresh `PadAdapter`
(`on_newline = false`). -/
def fieldOut (rendering : String) : String :=
  String.mk (padChars false ('\n' :: rendering.toList))

/-- A complete `DisplaySchemaGroup` run: `new`, one `field` call per field
rendering, then `finish` (lines 157–164): `"\n\x7d"` when at least one field
was added, `" \x7d"` otherwise. -/
def displaySchemaGroup (r : Option Repetition) (name : Option String)
    (logical : Option LogicalType) (fields : List String) : String :=
  groupHeader r name logical
    ++ fields.foldl (fun acc f => acc ++ fieldOut f) ""
    ++ (if fields.isEmpty then " \x7d" else "\n\x7d")

/-- Spec-side padding (rule §4.6, stated in the claim's own words): a
four-space pad follows every newline of the child output. -/
def specPadChars : List Char → List Char
  | [] => []
  | c :: rest =>
      if c == '\n' then c :: ' ' :: ' ' :: ' ' :: ' ' :: specPadChars rest
      else c :: specPadChars rest

/-- On a nonempty string without a trailing newline, the adapter agrees with
the spec-side padding: with the flag set it first pads, and every internal
newline is followed by a pad. -/
theorem padChars_spec : ∀ cs : List Char, cs ≠ [] → cs.getLast? ≠ some '\n' →
    ∀ b : Bool,
    padChars b cs =
      (if b then [' ', ' ', ' ', ' '] else []) ++ specPadChars cs := by
  intro cs
  induction cs with
  | nil => intro h; exact absurd rfl h
  | cons c rest ih =>
      intro _ hlast b
      cases rest with
      | nil =>
          have hc : ¬ c = '\n' := by simpa [List.getLast?] using hlast
          cases b <;> simp [padChars, specPadChars, hc]
      | cons d rest2 =>
          have hlast2 : (d :: rest2).getLast? ≠ some '\n' := by
            rw [List.getLast?_cons_cons] at hlast
            exact hlast
          have ih2 := ih (by simp) hlast2
          calc padChars b (c :: d :: rest2)
              = (if b then [' ', ' ', ' ', ' '] else [])
                  ++ c :: padChars (c == '\n') (d :: rest2) := by
                cases b <;> rfl
            _ = (if b then [' ', ' ', ' ', ' '] else [])
                  ++ c :: ((if (c == '\n') then [' ', ' ', ' ', ' '] else [])
                    ++ specPadChars (d :: rest2)) := by
                rw [ih2 (c == '\n')]
            _ = (if b then [' ', ' ', ' ', ' '] else [])
                  ++ specPadChars (c :: d :: rest2) := by
                by_cases hc : c = '\n' <;> simp [specPadChars, hc]

/-- A field write is the newline, the four-space indent, then the spec-padded
child rendering. -/
theorem fieldOut_eq (f : String) (hne : f.toList ≠ [])
    (hlast : f.toList.getLast? ≠ some '\n') :
    fieldOut f = "\n    " ++ String.mk (specPadChars f.toList) := by
  have h := padChars_spec f.toList hne hlast true
  have h2 : padChars false ('\n' :: f.toList) = '\n' :: padChars true f.toList := rfl
  rw [fieldOut, h2, h]
  rfl

/-- `String.join` distributes over the head of the list. -/
theorem stringJoinCons (a : String) (l : List String) :
    String.join (a :: l) = a ++ String.join l := by
  cases a with
  | mk d =>
      simp [String.join_eq]
      rfl

/-- The field fold is the join of the individual field writes. -/
theorem foldl_fieldOut (fields : List String) (acc : String) :
    fields.foldl (fun acc f => acc ++ fieldOut f) acc =
      acc ++ String.join (fields.map fieldOut) := by
  induction fields generalizing acc with
  | nil => simp [String.join]
  | cons f fs ih =>
      simp only [List.foldl_cons, List.map_cons, stringJoinCons]
      rw [ih (acc ++ fieldOut f), String.append_assoc]

/-- C9: display.  The header is `<repetition> group <name>` with the logical
annotation appended in parentheses when present (or `message <name>` at the
root) followed by ` {`; with no fields the closing brace follows on the same
line separated by one space; with fields, each field is preceded by a
newline and a four-space indent, internal newlines of the child output are
also followed by the four-space pad, and the closing brace is written on a
new line. -/
theorem claim_C9 :
    (∀ (rep : Repetition) (n : String) (l : LogicalType),
      groupHeader (some rep) (some n) (some l) =
        rep.toText ++ " group " ++ n ++ " (" ++ l.toText ++ ")" ++ " \x7b")
    ∧ (∀ (rep : Repetition) (n : String),
        groupHeader (some rep) (some n) Option.none =
          rep.toText ++ " group " ++ n ++ " \x7b")
    ∧ (∀ n : String,
        groupHeader Option.none (some n) Option.none = "message " ++ n ++ " \x7b")
    ∧ (∀ (r : Option Repetition) (name : Option String)
        (logical : Option LogicalType),
        displaySchemaGroup r name logical [] = groupHeader r name logical ++ " \x7d")
    ∧ (∀ (r : Option Repetition) (name : Option String)
        (logical : Option LogicalType) (fields : List String),
        fields ≠ [] →
        (∀ f ∈ fields, f.toList ≠ [] ∧ f.toList.getLast? ≠ some '\n') →
        displaySchemaGroup r name logical fields =
          groupHeader r name logical
            ++ String.join (fields.map (fun f =>
                "\n    " ++ String.mk (specPadChars f.toList)))
            ++ "\n\x7d") := by
  refine ⟨?_, ?_, ?_, ?_, ?_⟩
  · intro rep n l
    simp [groupHeader, String.append_assoc]
  · intro rep n
    simp [groupHeader, String.append_assoc]
  · intro n
    simp [groupHeader, String.append_assoc]
  · intro r name logical
    simp [displaySchemaGroup]
  · intro r name logical fields hne hfields
    have hmap : fields.map fieldOut = fields.map (fun f =>
        "\n    " ++ String.mk (specPadChars f.toList)) := by
      apply List.map_congr_left
      intro f hf
      exact fieldOut_eq f (hfields f hf).1 (hfields f hf).2
    rw [displaySchemaGroup, foldl_fieldOut, hmap]
    cases fields with
    | nil => exact absurd rfl hne
    | cons f fs => simp

/-- Witness for C9: the S6 group `required group xs (LIST)` with the one
multi-line field rendering of the nested `list` group, printed character for
character with nested indentation. -/
theorem claim_C9_witness :
    displaySchemaGroup (some Repetition.required) (some "xs")
        (some LogicalType.list)
        ["repeated group list \x7b\n    required int32 element;\n\x7d"] =
      "required group xs (LIST) \x7b\n    repeated group list \x7b\n        required int32 element;\n    \x7d\n\x7d" := by
  have h := (claim_C9).2.2.2.2 (some Repetition.required) (some "xs")
    (some LogicalType.list)
    ["repeated group list \x7b\n    required int32 element;\n\x7d"]
    (by decide) (by decide)
  rw [h]
  rfl

/-!
Conversions between `Group` and the insertion-ordered map
(`group.rs` lines 182–208), with the `LinkedHashMap<String, Value>` modelled
as its entry list in insertion order (a genuine map has pairwise-distinct
keys). -/

/-- The entry loop of `impl From<LinkedHashMap<String, Value>> for Group`
(`group.rs` lines 186–194): values are collected in insertion order while
each key is inserted into the index map with the next sequential index,
asserting freshness (`assert!(res.is_none())` panics on a duplicate). -/
def groupFromMapAux : List (String × Value) → List String →
    PResult (List String × List Value)
  | [], _ => .ok ([], [])
  | (k, v) :: rest, seen =>
      if k ∈ seen then .panicked "assertion failed: res.is_none()"
      else
        (groupFromMapAux rest (seen ++ [k])).bind (fun tail =>
          .ok (k :: tail.1, v :: tail.2))

/-- `impl From<LinkedHashMap<String, Value>> for Group`. -/
def groupFromMap (entries : List (String × Value)) : PResult Group := do
  let r ← groupFromMapAux entries []
  pure ⟨r.2, r.1⟩

/-- `impl From<Group> for LinkedHashMap<String, Value>` (`group.rs` lines
199–208): the names zipped with the field values, in order. -/
def groupIntoMap (g : Group) : List (String × Value) :=
  g.names.zip g.fields

/-- `LinkedHashMap::get` on the name-to-index map, modelled on the name
list: the position of the first occurrence of the name. -/
def lookupIndex (k : String) : List String → Option Nat
  | [] => Option.none
  | n :: rest => if n = k then some 0 else (lookupIndex k rest).map (· + 1)

/-- `Group::get` (`group.rs` lines 131–133): look the name up in the index
map, then index the field vector. -/
def Group.get (g : Group) (k : String) : Option Value :=
  (lookupIndex k g.names).bind (fun i => g.fields.get? i)

/-- The entry loop succeeds on distinct keys disjoint from those already
seen, producing the keys and values in order. -/
theorem groupFromMapAux_ok :
    ∀ (entries : List (String × Value)) (seen : List String),
    (entries.map Prod.fst).Nodup →
    (∀ k ∈ entries.map Prod.fst, k ∉ seen) →
    groupFromMapAux entries seen =
      PResult.ok (entries.map Prod.fst, entries.map Prod.snd) := by
  intro entries
  induction entries with
  | nil => intro seen h1 h2; rfl
  | cons kv rest ih =>
      intro seen h1 h2
      obtain ⟨k, v⟩ := kv
      have h1' : (k :: rest.map Prod.fst).Nodup := by simpa using h1
      have hknot : k ∉ rest.map Prod.fst := (List.nodup_cons.mp h1').1
      have hrest : (rest.map Prod.fst).Nodup := (List.nodup_cons.mp h1').2
      have hk : k ∉ seen := h2 k (by simp)
      have h2' : ∀ k2 ∈ rest.map Prod.fst, k2 ∉ seen ++ [k] := by
        intro k2 hk2
        simp only [List.mem_append, List.mem_singleton]
        rintro (hin | rfl)
        · exact h2 k2 (by simp [hk2]) hin
        · exact hknot hk2
      simp [groupFromMapAux, hk, ih (seen ++ [k]) hrest h2']

/-- Zipping the projections of a pair list restores it. -/
theorem zipProj (l : List (String × Value)) :
    (l.map Prod.fst).zip (l.map Prod.snd) = l := by
  induction l with
  | nil => rfl
  | cons kv rest ih => simp [ih]

/-- `lookupIndex` finds the position of each name of a duplicate-free list. -/
theorem lookupIndex_getElem :
    ∀ (names : List String), names.Nodup →
    ∀ (i : Nat) (hi : i < names.length),
    lookupIndex names[i] names = some i := by
  intro names
  induction names with
  | nil => intro _ i hi; exact absurd hi (by simp)
  | cons n rest ih =>
      intro hnd i hi
      cases i with
      | zero => simp [lookupIndex]
      | succ j =>
          have hj : j < rest.length := by simpa using hi
          have hmem : rest[j] ∈ rest := List.getElem_mem hj
          have hne : ¬ n = rest[j] := by
            intro he
            exact (List.nodup_cons.mp hnd).1 (he ▸ hmem)
          simp [lookupIndex, hne, ih (List.nodup_cons.mp hnd).2 j hj]

set_option maxHeartbeats 1000000 in
/-- C10: converting an insertion-ordered map into a `Group` and back is the
identity (same name-to-value entries, same order); the group built this way
stores the value of the i-th inserted name at field index i, and looking the
i-th name up by name returns that same value. -/
theorem claim_C10 (entries : List (String × Value))
    (h : (entries.map Prod.fst).Nodup) :
    groupFromMap entries =
      PResult.ok ⟨entries.map Prod.snd, entries.map Prod.fst⟩
    ∧ groupIntoMap ⟨entries.map Prod.snd, entries.map Prod.fst⟩ = entries
    ∧ (∀ (i : Nat) (hi : i < entries.length),
        (entries.map Prod.snd)[i]? = some entries[i].2
        ∧ Group.get ⟨entries.map Prod.snd, entries.map Prod.fst⟩
            entries[i].1 = some entries[i].2) := by
  refine ⟨?_, ?_, ?_⟩
  · simp [groupFromMap, groupFromMapAux_ok entries [] h (by simp)]
  · simp [groupIntoMap, zipProj]
  · intro i hi
    constructor
    · simp [List.getElem?_map, List.getElem?_eq_getElem hi]
    · have hi2 : i < (List.map Prod.fst entries).length := by simpa using hi
      have hname : (List.map Prod.fst entries)[i] = entries[i].1 := by
        simp
      have hl := lookupIndex_getElem (entries.map Prod.fst) h i hi2
      rw [hname] at hl
      simp [Group.get, hl, List.getElem?_map, List.getElem?_eq_getElem hi]

/-- Witness for C10 at the two-entry map `{"a" → I32 1, "b" → Bool true}`. -/
theorem claim_C10_witness :
    groupFromMap [("a", Value.i32 1), ("b", Value.bool true)] =
      PResult.ok ⟨[Value.i32 1, Value.bool true], ["a", "b"]⟩ :=
  (claim_C10 [("a", Value.i32 1), ("b", Value.bool true)] (by decide)).1

end Parquet
